import Mathlib

/-!
Verification development for the SERVONIX bus-complaint management backend.

This file gives a shallow embedding, in Lean 4, of the two core subsystems of
the backend, translated from the Python sources:

* the OTP authentication state machine of `backend/routes/auth.py`
  (registration flow, password-reset flow, rate limiting), and
* the deterministic complaint-to-admin auto-assignment resolver of
  `backend/services/auto_assignment.py` together with its caller in
  `backend/routes/complaints.py`.

Modelling conventions:

* Database tables are association lists of typed rows, in insertion order.
  SQL `SELECT ... LIMIT 1` without an ORDER BY (`fetchone`) is the first row
  in table-scan order; `ORDER BY x DESC LIMIT 1` is the scan-order-first row
  with maximal key (SQLite leaves the order of ties unspecified; the scan
  order models the store's incidental order).
* Timestamps are natural numbers counting seconds.  The Python code stores
  `'%Y-%m-%d %H:%M:%S'` strings (second granularity) and compares datetimes,
  which this models exactly.  `OTP_EXPIRY_MINUTES = 5` becomes 300 seconds
  and the rate-limit window of 10 minutes becomes 600 seconds.  Python's
  `int(minutes_float)` truncation of a nonnegative remaining time equals
  Nat division of the remaining seconds by 60.
* SHA-256 (used for both OTP hashes and verification-token hashes) is
  modelled as an abstract collision-free tagging function on strings, and
  werkzeug's salted `generate_password_hash` as a second, deterministic
  tagging function; only hash equality is ever observed by the code.
* Randomness (fresh OTPs, `secrets.token_urlsafe`, new user api tokens) and
  the outcome of the outbound e-mail collaborator are passed in as explicit
  arguments.
* Request inputs are modelled after `.strip().lower()` normalisation.
-/

/-- Expiry of one-time codes: `OTP_EXPIRY_MINUTES = 5`, in seconds. -/
def OTP_EXPIRY_SECONDS : Nat := 300

/-- Rate-limit cap per window: `OTP_RATE_LIMIT_MAX = 3`. -/
def OTP_RATE_LIMIT_MAX : Nat := 3

/-- Rate-limit window: `OTP_RATE_LIMIT_WINDOW = 10` minutes, in seconds. -/
def OTP_RATE_LIMIT_WINDOW_SECONDS : Nat := 600

/-- Length of a one-time code: `OTP_LENGTH = 6`. -/
def OTP_LENGTH : Nat := 6

/-- Abstract model of `hashlib.sha256(s.encode()).hexdigest()` (used by
`hash_otp` and for verification-token hashes in `auth.py`): an injective
tagging function, standing for a collision-free digest. -/
def hash_otp (s : String) : String := ⟨'#' :: s.data⟩

/-- Abstract model of werkzeug's `generate_password_hash` (salt abstracted
away so the function is deterministic; the code only stores and transports
these values). -/
def generate_password_hash (s : String) : String := ⟨'P' :: s.data⟩

/-- Model of `verify_otp_hash` in `auth.py`: recompute the digest of the
submitted code and compare with the stored digest (`hmac.compare_digest`;
constant-time in the source, plain equality of the compared values). -/
def verify_otp_hash (otp : String) (stored : String) : Bool :=
  hash_otp otp == stored

theorem hash_otp_injective {a b : String} (h : hash_otp a = hash_otp b) : a = b := by
  have hd := congrArg String.data h
  simp only [hash_otp, List.cons.injEq] at hd
  cases a; cases b; simp_all

/-- Character class `[a-zA-Z0-9._%+-]` of the local part of `EMAIL_REGEX`. -/
def emailLocalChar (c : Char) : Bool :=
  c.isAlphanum || c == '.' || c == '_' || c == '%' || c == '+' || c == '-'

/-- Character class `[a-zA-Z0-9.-]` of the domain part of `EMAIL_REGEX`. -/
def emailDomainChar (c : Char) : Bool :=
  c.isAlphanum || c == '.' || c == '-'

/-- Split a character list on every occurrence of `ch` (so the number of
segments is the number of occurrences plus one). -/
def splitOnChar (ch : Char) : List Char → List (List Char)
  | [] => [[]]
  | c :: cs =>
    match splitOnChar ch cs with
    | [] => if c == ch then [[], [c]] else [[c]]
    | s :: ss => if c == ch then [] :: s :: ss else (c :: s) :: ss

/-- Model of `is_valid_email` in `auth.py`: the anchored regex
`[a-zA-Z0-9._%+-]+ at-sign [a-zA-Z0-9.-]+ dot [a-zA-Z]{2,}`.  A string
matches iff it has exactly one at-sign, a nonempty local part over the local
class, and a domain whose maximal suffix after the last dot is at least two
letters with a nonempty prefix over the domain class before that dot. -/
def is_valid_email (email : String) : Bool :=
  match splitOnChar '@' email.data with
  | [lp, dp] =>
    (!lp.isEmpty) && lp.all emailLocalChar &&
    (let rev := dp.reverse
     let tldRev := rev.takeWhile (fun c => !(c == '.'))
     let rest := rev.drop tldRev.length
     match rest with
     | [] => false
     | _ :: midRev =>
       decide (2 ≤ tldRev.length) && tldRev.all Char.isAlpha &&
       (!midRev.isEmpty) && midRev.all emailDomainChar)
  | _ => false

/-- One row of the `users` table (columns used by the auth subsystem). -/
structure UserRow where
  id : Nat
  name : String
  email : String
  passwordHash : String
  role : String
  apiToken : String
  isActive : Bool
deriving DecidableEq

/-- One row of the `registration_otp` table. -/
structure RegOtpRow where
  id : Nat
  name : String
  email : String
  passwordHash : String
  otpHash : String
  expiresAt : Nat
  createdAt : Nat
  ipAddress : Option String
deriving DecidableEq

/-- One row of the `password_reset_otp` table. -/
structure ResetOtpRow where
  id : Nat
  email : String
  otpHash : String
  expiresAt : Nat
  used : Bool
  createdAt : Nat
  ipAddress : Option String
deriving DecidableEq

/-- One row of the `otp_rate_limit` table. -/
structure RateRow where
  id : Nat
  email : String
  requestCount : Nat
  windowStart : Nat
  lastRequest : Nat
deriving DecidableEq

/-- The relational state shared by the auth endpoints, with one
auto-increment counter per table. -/
structure AuthDb where
  users : List UserRow
  regOtp : List RegOtpRow
  resetOtp : List ResetOtpRow
  rateLimit : List RateRow
  nextUserId : Nat
  nextRegId : Nat
  nextResetId : Nat
  nextRateId : Nat
deriving DecidableEq

/-- Payload of the signed registration JWT minted by
`_create_registration_token`: the pending-registration fields plus the
token's own `exp` claim (`now + OTP_EXPIRY_MINUTES + 2` minutes).  Only
genuinely signed tokens are representable; a forged or absent token is
`none` at the call sites. -/
structure RegToken where
  name : String
  email : String
  passwordHash : String
  otpHash : String
  expiresAt : Nat
  exp : Nat
deriving DecidableEq

/-- Model of `_decode_registration_token`: signature and payload-type checks
always pass for a representable token, and the `exp` claim must still be in
the future, else decoding fails and the caller falls back to the database. -/
def decodeRegistrationToken (now : Nat) (token : Option RegToken) : Option RegToken :=
  token.bind (fun t => if now < t.exp then some t else none)

/-- Model of `check_rate_limit` in `auth.py`.  Returns
`((allowed, payload), db')` where `payload` is the number of further
requests remaining when allowed, and the remaining seconds of the window
when blocked (the source returns remaining minutes as a float; the routes
apply `int(...)`, which equals this value divided by 60). -/
def check_rate_limit (now : Nat) (email : String) (db : AuthDb) : (Bool × Nat) × AuthDb :=
  match db.rateLimit.find? (fun r => r.email == email) with
  | none =>
    ((true, OTP_RATE_LIMIT_MAX - 1),
     { db with rateLimit := db.rateLimit ++ [⟨db.nextRateId, email, 1, now, now⟩],
               nextRateId := db.nextRateId + 1 })
  | some r0 =>
    if OTP_RATE_LIMIT_WINDOW_SECONDS ≤ now - r0.windowStart then
      ((true, OTP_RATE_LIMIT_MAX - 1),
       { db with rateLimit := db.rateLimit.map (fun r =>
           if r.id == r0.id then
             { r with requestCount := 1, windowStart := now, lastRequest := now }
           else r) })
    else if OTP_RATE_LIMIT_MAX ≤ r0.requestCount then
      ((false, OTP_RATE_LIMIT_WINDOW_SECONDS - (now - r0.windowStart)), db)
    else
      ((true, OTP_RATE_LIMIT_MAX - 1 - r0.requestCount),
       { db with rateLimit := db.rateLimit.map (fun r =>
           if r.id == r0.id then
             { r with requestCount := r.requestCount + 1, lastRequest := now }
           else r) })

/-- The registration token minted by `register_request` for a request at
`now` with the given inputs (payload fields as in
`_create_registration_token`). -/
def regTokenOf (now : Nat) (name email password otp : String) : RegToken :=
  ⟨name, email, generate_password_hash password, hash_otp otp,
   now + OTP_EXPIRY_SECONDS, now + OTP_EXPIRY_SECONDS + 120⟩

/-- Outcome of the `POST /api/register-request` handler (`register_request`
in `auth.py`), one constructor per distinct response body. -/
inductive RegRequestRes where
  | nameShort
  | emailRequired
  | emailInvalid
  | pwShort
  | pwLong
  | conflict
  | rateLimited (retryAfter : Nat)
  | emailFailed (tok : RegToken)
  | okIssued (tok : RegToken)
deriving DecidableEq

/-- Model of `register_request` in `auth.py`: validate inputs, reject an
already-registered email (409), rate limit, then delete any prior pending
registration row for the email, insert a fresh one carrying the hash of the
new OTP, and mint a signed registration token with the same payload.  The
fresh OTP is the argument `otp` (the source draws it from `secrets`);
`emailOk` is the outbound e-mail collaborator's outcome (delivery failure
yields a 400 but the row and token have already been issued). -/
def register_request (now : Nat) (name email password otp clientIp : String)
    (emailOk : Bool) (db : AuthDb) : RegRequestRes × AuthDb :=
  if name.length < 2 then (.nameShort, db)
  else if email == "" then (.emailRequired, db)
  else if !is_valid_email email then (.emailInvalid, db)
  else if password.length < 6 then (.pwShort, db)
  else if 128 < password.length then (.pwLong, db)
  else if db.users.any (fun u => u.email == email) then (.conflict, db)
  else
    match check_rate_limit now email db with
    | ((false, remSec), db1) => (.rateLimited (remSec / 60), db1)
    | ((true, _), db1) =>
      let newRow : RegOtpRow :=
        ⟨db1.nextRegId, name, email, generate_password_hash password, hash_otp otp,
         now + OTP_EXPIRY_SECONDS, now, some clientIp⟩
      let tok := regTokenOf now name email password otp
      ((if emailOk then .okIssued tok else .emailFailed tok),
       { db1 with
           regOtp := (db1.regOtp.filter (fun r => !(r.email == email))) ++ [newRow],
           nextRegId := db1.nextRegId + 1 })

/-- Outcome of the `POST /api/register-verify` handler. -/
inductive RegVerifyRes where
  | missingFields
  | badFormat
  | noPending
  | invalidCode
  | expired
  | alreadyRegistered
  | created (userId : Nat)
deriving DecidableEq

/-- Shared tail of `register_verify` once a pending record has been
resolved (either from the token, with `pendingId = none`, or from the
`registration_otp` row with that id): check the OTP hash, then expiry, then
that no account was registered meanwhile, and finally create the account,
deleting the pending row and the rate-limit row. -/
def registerVerifyPending (now : Nat) (email : String) (pendingId : Option Nat)
    (pname pemail ppwHash potpHash : String) (pexpiresAt : Nat) (otp newUserToken : String)
    (db : AuthDb) : RegVerifyRes × AuthDb :=
  if !verify_otp_hash otp potpHash then (.invalidCode, db)
  else if pexpiresAt < now then
    (.expired,
     { db with regOtp := match pendingId with
         | some i => db.regOtp.filter (fun r => !(r.id == i))
         | none => db.regOtp })
  else if db.users.any (fun u => u.email == email) then
    (.alreadyRegistered,
     { db with regOtp := match pendingId with
         | some i => db.regOtp.filter (fun r => !(r.id == i))
         | none => db.regOtp })
  else
    (.created db.nextUserId,
     { db with
         users := db.users ++ [⟨db.nextUserId, pname, pemail, ppwHash, "user", newUserToken, true⟩],
         regOtp := match pendingId with
           | some i => db.regOtp.filter (fun r => !(r.id == i))
           | none => db.regOtp.filter (fun r => !(r.email == email)),
         rateLimit := db.rateLimit.filter (fun r => !(r.email == email)),
         nextUserId := db.nextUserId + 1 })

/-- Model of `register_verify` in `auth.py`: validate the submitted code's
shape, resolve the pending registration preferring a decodable registration
token whose email matches (`pending_id = None` on that path), falling back
to the `registration_otp` row, then run the shared verification tail.
`newUserToken` stands for the random 64-character api token minted for the
new account. -/
def register_verify (now : Nat) (email otp : String) (token : Option RegToken)
    (newUserToken : String) (db : AuthDb) : RegVerifyRes × AuthDb :=
  if email == "" || otp == "" then (.missingFields, db)
  else if !(otp.data.all Char.isDigit) || !(otp.length == OTP_LENGTH) then (.badFormat, db)
  else
    match
      (match decodeRegistrationToken now token with
       | some t => if t.email == email then some t else none
       | none => none)
    with
    | some t =>
      registerVerifyPending now email none t.name t.email t.passwordHash t.otpHash
        t.expiresAt otp newUserToken db
    | none =>
      match db.regOtp.find? (fun r => r.email == email) with
      | none => (.noPending, db)
      | some r =>
        registerVerifyPending now email (some r.id) r.name r.email r.passwordHash r.otpHash
          r.expiresAt otp newUserToken db

/-- Outcome of the `POST /api/register-resend` handler. -/
inductive RegResendRes where
  | emailRequired
  | noPending
  | rateLimited (retryAfter : Nat)
  | emailFailed (tok : RegToken)
  | okIssued (tok : RegToken)
deriving DecidableEq

/-- Issuing tail of `register_resend` (after the pending identity is
resolved): rate limit, write the fresh hash/expiry, return the new token. -/
def registerResendIssue (now : Nat) (email regName regPwHash : String)
    (pendingId : Option Nat) (otp : String) (emailOk : Bool) (db : AuthDb) :
    RegResendRes × AuthDb :=
  match check_rate_limit now email db with
  | ((false, remSec), db1) => (.rateLimited (remSec / 60), db1)
  | ((true, _), db1) =>
    let otpH := hash_otp otp
    let db2 :=
      match pendingId with
      | some i =>
        { db1 with regOtp := db1.regOtp.map (fun r =>
            if r.id == i then
              { r with otpHash := otpH, expiresAt := now + OTP_EXPIRY_SECONDS, createdAt := now }
            else r) }
      | none =>
        { db1 with
            regOtp := (db1.regOtp.filter (fun r => !(r.email == email))) ++
              [⟨db1.nextRegId, regName, email, regPwHash, otpH, now + OTP_EXPIRY_SECONDS, now, none⟩],
            nextRegId := db1.nextRegId + 1 }
    let tok : RegToken :=
      ⟨regName, email, regPwHash, otpH, now + OTP_EXPIRY_SECONDS, now + OTP_EXPIRY_SECONDS + 120⟩
    ((if emailOk then .okIssued tok else .emailFailed tok), db2)

/-- Model of `register_resend` in `auth.py`: resolve the pending identity
(token first, then the `registration_otp` row), rate limit, then install a
fresh OTP hash and expiry — updating the existing row in place when one was
found, otherwise delete-and-insert — and mint a refreshed token. -/
def register_resend (now : Nat) (email : String) (token : Option RegToken) (otp : String)
    (emailOk : Bool) (db : AuthDb) : RegResendRes × AuthDb :=
  if email == "" then (.emailRequired, db)
  else
    match
      (match decodeRegistrationToken now token with
       | some t => if t.email == email then some (t.name, t.passwordHash, (none : Option Nat)) else none
       | none => none)
    with
    | some (regName, regPwHash, _) =>
      registerResendIssue now email regName regPwHash none otp emailOk db
    | none =>
      match db.regOtp.find? (fun r => r.email == email) with
      | none => (.noPending, db)
      | some r => registerResendIssue now email r.name r.passwordHash (some r.id) otp emailOk db

/-- Outcome of the `POST /api/request-otp` handler (password-reset flow). -/
inductive RequestOtpRes where
  | missingEmail
  | genericOk
  | deactivated
  | rateLimited (retryAfter : Nat)
  | emailFailed
  | sent
deriving DecidableEq

/-- Model of `request_otp` in `auth.py`: anti-enumeration generic success
when no user row exists, a distinct 403 for a deactivated account, rate
limiting, then mark every unused reset OTP for the email as used and insert
a fresh hashed one. -/
def request_otp (now : Nat) (email otp clientIp : String) (emailOk : Bool) (db : AuthDb) :
    RequestOtpRes × AuthDb :=
  if email == "" then (.missingEmail, db)
  else
    match db.users.find? (fun u => u.email == email) with
    | none => (.genericOk, db)
    | some u =>
      if !u.isActive then (.deactivated, db)
      else
        match check_rate_limit now email db with
        | ((false, remSec), db1) => (.rateLimited (remSec / 60), db1)
        | ((true, _), db1) =>
          ((if emailOk then .sent else .emailFailed),
           { db1 with
               resetOtp := (db1.resetOtp.map (fun r =>
                 if r.email == email && !r.used then { r with used := true } else r)) ++
                 [⟨db1.nextResetId, email, hash_otp otp, now + OTP_EXPIRY_SECONDS, false, now,
                   some clientIp⟩],
               nextResetId := db1.nextResetId + 1 })

/-- The row returned by
`SELECT ... WHERE email = ? AND used = 0 ORDER BY created_at DESC LIMIT 1`
in `verify_otp`: among the unused rows for the email, the scan-order-first
row of maximal `created_at`. -/
def latestUnused (rows : List ResetOtpRow) (email : String) : Option ResetOtpRow :=
  match rows.filter (fun r => r.email == email && !r.used) with
  | [] => none
  | c :: cs => some (cs.foldl (fun best r => if best.createdAt < r.createdAt then r else best) c)

/-- Outcome of the `POST /api/verify-otp` handler (password-reset flow). -/
inductive VerifyOtpRes where
  | missingFields
  | badFormat
  | noActive
  | invalid
  | expired
  | verified (verificationToken : String)
deriving DecidableEq

/-- Model of `verify_otp` in `auth.py`: fetch the latest unused reset OTP
row for the email, compare hashes, check expiry (marking the stale row used
on failure), and on success store the hash of a fresh single-use
verification token in place of the OTP hash on the same row.  `vtok` stands
for the random `secrets.token_urlsafe(32)` value. -/
def verify_otp (now : Nat) (email otp vtok : String) (db : AuthDb) : VerifyOtpRes × AuthDb :=
  if email == "" || otp == "" then (.missingFields, db)
  else if !(otp.data.all Char.isDigit) || !(otp.length == OTP_LENGTH) then (.badFormat, db)
  else
    match latestUnused db.resetOtp email with
    | none => (.noActive, db)
    | some r0 =>
      if !verify_otp_hash otp r0.otpHash then (.invalid, db)
      else if r0.expiresAt < now then
        (.expired,
         { db with resetOtp := db.resetOtp.map (fun r =>
             if r.id == r0.id then { r with used := true } else r) })
      else
        (.verified vtok,
         { db with resetOtp := db.resetOtp.map (fun r =>
             if r.id == r0.id then { r with otpHash := hash_otp vtok } else r) })

/-- The row returned by `SELECT id FROM password_reset_otp WHERE email = ?
AND otp_hash = ? AND used = 0 AND expires_at > datetime('now') ORDER BY
created_at DESC LIMIT 1` in `reset_password`. -/
def findResetSession (now : Nat) (email vhash : String) (rows : List ResetOtpRow) :
    Option ResetOtpRow :=
  match rows.filter (fun r =>
      r.email == email && r.otpHash == vhash && !r.used && decide (now < r.expiresAt)) with
  | [] => none
  | c :: cs => some (cs.foldl (fun best r => if best.createdAt < r.createdAt then r else best) c)

/-- Outcome of the `POST /api/reset-password` handler. -/
inductive ResetPwRes where
  | missingFields
  | pwShort
  | pwLong
  | invalidSession
  | userNotFound
  | ok
deriving DecidableEq

/-- Model of `reset_password` in `auth.py`: require an unused, unexpired
reset row whose stored hash matches the hash of the presented verification
token, then update the user's password hash, delete every
`password_reset_otp` row for the email and the `otp_rate_limit` row.  (The
`registration_otp` table is not touched by this handler.) -/
def reset_password (now : Nat) (email vtok newPassword : String) (db : AuthDb) :
    ResetPwRes × AuthDb :=
  if email == "" || vtok == "" || newPassword == "" then (.missingFields, db)
  else if newPassword.length < 6 then (.pwShort, db)
  else if 128 < newPassword.length then (.pwLong, db)
  else
    match findResetSession now email (hash_otp vtok) db.resetOtp with
    | none => (.invalidSession, db)
    | some _ =>
      match db.users.find? (fun u => u.email == email) with
      | none => (.userNotFound, db)
      | some u =>
        (.ok,
         { db with
             users := db.users.map (fun w =>
               if w.id == u.id then { w with passwordHash := generate_password_hash newPassword }
               else w),
             resetOtp := db.resetOtp.filter (fun r => !(r.email == email)),
             rateLimit := db.rateLimit.filter (fun r => !(r.email == email)) })

/-- One row of the `buses` table (columns used by the resolver). -/
structure BusRow where
  busNumber : String
  routeId : Nat
  isActive : Bool
deriving DecidableEq

/-- One row of the `routes` table (columns used by the resolver).  An SQL
NULL name or code is modelled as the empty string, matching Python
falsiness in `bus_route['route_name'] or bus_route['route_code']`. -/
structure RouteRow where
  id : Nat
  name : String
  code : String
  districtId : Option Nat
  isActive : Bool
deriving DecidableEq

/-- One row of the `admin_assignments` table.  `priority` is a string: the
head-admin route-assignment handlers (`routes/head.py`) always insert one of
the values "high", "medium", "low". -/
structure AssignRow where
  id : Nat
  adminId : Nat
  routeId : Nat
  priority : String
deriving DecidableEq

/-- The relational state read by the auto-assignment resolver. -/
structure AssignDb where
  buses : List BusRow
  routes : List RouteRow
  assigns : List AssignRow
  users : List UserRow
deriving DecidableEq

/-- The dict returned by `find_admin_for_complaint` on a match. -/
structure Assignment where
  adminId : Nat
  districtId : Option Nat
  reason : String
deriving DecidableEq

/-- Conversion used to derive decidable equality for `Except` results. -/
def exceptToSum {e a : Type} : Except e a → e ⊕ a
  | .error x => .inl x
  | .ok x => .inr x

instance {e a : Type} [DecidableEq e] [DecidableEq a] : DecidableEq (Except e a) :=
  fun x y =>
    decidable_of_iff (exceptToSum x = exceptToSum y)
      (by cases x <;> cases y <;> simp [exceptToSum])

/-- Fault-injection switches for the resolver's storage accesses: `connOk`
is `get_db()` / `conn.cursor()` (outside the handler's try block), `busOk`
the bus-route lookup query, `assignOk` the assignment-matching query. -/
structure Faults where
  connOk : Bool
  busOk : Bool
  assignOk : Bool
deriving DecidableEq

/-- The fault-free storage layer. -/
def noFaults : Faults := ⟨true, true, true⟩

/-- The first row of the join
`buses JOIN routes ON b.route_id = r.id WHERE b.bus_number = ? AND
b.is_active = 1 AND r.is_active = 1` (a `fetchone`), yielding the route's
name and code. -/
def busRouteLookup (db : AssignDb) (busNumber : String) : Option (String × String) :=
  db.buses.findSome? (fun b =>
    if b.busNumber == busNumber && b.isActive then
      (db.routes.find? (fun r => r.id == b.routeId && r.isActive)).map (fun r => (r.name, r.code))
    else none)

/-- All rows of the join in the strict route-matching query of
`find_admin_for_complaint`, in nested-scan order:
`admin_assignments JOIN routes JOIN users WHERE (r.name = ? OR r.code = ?)
AND u.is_active = 1 AND u.role = 'admin' AND r.is_active = 1`. -/
def matchCandidates (db : AssignDb) (q : String) : List (AssignRow × RouteRow × UserRow) :=
  db.assigns.flatMap (fun aa =>
    (db.routes.filter (fun r => r.id == aa.routeId)).flatMap (fun r =>
      (db.users.filter (fun u => u.id == aa.adminId)).filterMap (fun u =>
        if (r.name == q || r.code == q) && u.isActive && u.role == "admin" && r.isActive then
          some (aa, r, u)
        else none)))

/-- Byte-wise lexicographic order on character lists. -/
def charListLt : List Char → List Char → Bool
  | [], [] => false
  | [], _ :: _ => true
  | _ :: _, [] => false
  | a :: as, b :: bs =>
    if a.toNat < b.toNat then true
    else if b.toNat < a.toNat then false
    else charListLt as bs

/-- SQLite's default BINARY collation: memcmp over the encoded text, which
for the ASCII priority strings is byte-wise lexicographic order. -/
def sqliteStrLt (a b : String) : Bool := charListLt a.data b.data

/-- The row kept by `ORDER BY aa.priority DESC LIMIT 1`: the
scan-order-first candidate whose `priority` string is maximal in the
store's BINARY collation order. -/
def pickTop : List (AssignRow × RouteRow × UserRow) → Option (AssignRow × RouteRow × UserRow)
  | [] => none
  | c :: cs => some (cs.foldl (fun best c2 => if sqliteStrLt best.1.priority c2.1.priority then c2 else best) c)

/-- The quoting used by the f-string reason message. -/
def quoted (s : String) : String := "\x27" ++ s ++ "\x27"

/-- The `reason` f-string of `find_admin_for_complaint`. -/
def assignmentReason (complaintRoute adminName : String) : String :=
  "Route " ++ quoted complaintRoute ++ " is assigned to admin " ++ quoted adminName

/-- Body of `find_admin_for_complaint` inside its try block: resolve the
complaint route (directly, or via the bus lookup when no route is given and
a bus number is), then run the strict matching query.  A `.error` value is
an exception raised by a storage access inside the try block.  Absent
route/bus arguments are the empty string (Python falsiness). -/
def findAdminForComplaintBody (f : Faults) (routeNumber busNumber : String) (db : AssignDb) :
    Except Unit (Option Assignment) :=
  match
    (if routeNumber == "" && !(busNumber == "") then
      if f.busOk then
        match busRouteLookup db busNumber with
        | some (n, c) => Except.ok (if !(n == "") then n else c)
        | none => Except.ok routeNumber
      else Except.error ()
    else Except.ok routeNumber : Except Unit String)
  with
  | .error e => .error e
  | .ok complaintRoute =>
    if complaintRoute == "" then .ok none
    else if !f.assignOk then .error ()
    else
      .ok ((pickTop (matchCandidates db complaintRoute)).map (fun c =>
        ⟨c.1.adminId, c.2.1.districtId, assignmentReason complaintRoute c.2.2.name⟩))

/-- Model of `AutoAssignmentService.find_admin_for_complaint`: `get_db()`
and `conn.cursor()` run before the try block, so a connection fault
propagates as an exception; any exception inside the try block is caught
and turned into the `None` (unassigned) result. -/
def find_admin_for_complaint (f : Faults) (routeNumber busNumber : String) (db : AssignDb) :
    Except Unit (Option Assignment) :=
  if !f.connOk then .error ()
  else
    match findAdminForComplaintBody f routeNumber busNumber db with
    | .error _ => .ok none
    | .ok r => .ok r

/-- The auto-assignment step of `create_complaint` in
`routes/complaints.py`: the resolver call sits in its own try/except, so
any exception from the resolver leaves the complaint unassigned and
complaint creation proceeds.  Returns the `(assigned_to, district_id)` pair
persisted onto the new complaint row. -/
def createComplaintAutoAssign (f : Faults) (routeNumber busNumber : String) (db : AssignDb) :
    Option Nat × Option Nat :=
  match find_admin_for_complaint f routeNumber busNumber db with
  | .error _ => (none, none)
  | .ok none => (none, none)
  | .ok (some a) => (some a.adminId, a.districtId)

/-- The priority order intended by the sources: `routes/head.py` inserts
`priority_levels = ['high', 'medium', 'low']` with the comment "first
routes get higher priority", and the resolver's docstring says the admin
with the HIGHEST priority for the route wins. -/
def priorityRank : String → Nat
  | "high" => 3
  | "medium" => 2
  | "low" => 1
  | _ => 0

/-- Concrete resolver state for the C1 analysis: one active route with two
active admins assigned at priorities "high" and "medium". -/
def c1Db : AssignDb :=
  { buses := [],
    routes := [⟨1, "R1", "R1C", some 7, true⟩],
    assigns := [⟨1, 1, 1, "high"⟩, ⟨2, 2, 1, "medium"⟩],
    users := [⟨1, "Alice", "alice@x.cd", "ph1", "admin", "ta", true⟩,
              ⟨2, "Bob", "bob@x.cd", "ph2", "admin", "tb", true⟩] }

/-- Concrete resolver state for the C7 counterexample. -/
def c7Db : AssignDb :=
  { buses := [],
    routes := [⟨1, "R1", "R1C", some 7, true⟩],
    assigns := [⟨1, 1, 1, "high"⟩],
    users := [⟨1, "Alice", "alice@x.cd", "ph1", "admin", "ta", true⟩] }

/-- Concrete resolver state for the C8 witness: an active bus on an active
named route with one assigned admin. -/
def c8Db : AssignDb :=
  { buses := [⟨"B7", 1, true⟩],
    routes := [⟨1, "R1", "R1C", some 7, true⟩],
    assigns := [⟨1, 1, 1, "high"⟩],
    users := [⟨1, "Alice", "alice@x.cd", "ph1", "admin", "ta", true⟩] }

/-- Discriminator for the issue path of `register_request`: the handler got
past validation, the conflict check and the rate limiter and issued a fresh
code (whether or not the outbound e-mail succeeded). -/
def regRequestIssued : RegRequestRes → Bool
  | .okIssued _ => true
  | .emailFailed _ => true
  | _ => false

/-- An empty relational state with all auto-increment counters at 1. -/
def emptyAuthDb : AuthDb := ⟨[], [], [], [], 1, 1, 1, 1⟩

/-- State after a first registration request for `a@b.cd` at time 0 with
OTP "111111" (C2 counterexample scenario). -/
def c2Db1 : AuthDb :=
  (register_request 0 "Ann" "a@b.cd" "secret01" "111111" "ip" true emptyAuthDb).2

/-- State after a second registration request for the same email at time 10
with fresh OTP "222222", superseding the first code (C2 counterexample
scenario). -/
def c2Db2 : AuthDb :=
  (register_request 10 "Ann" "a@b.cd" "secret01" "222222" "ip" true c2Db1).2

/-- A signed registration token for the C3 counterexample. -/
def c3Tok : RegToken := ⟨"Ann", "a@b.cd", "PH", hash_otp "111111", 300, 420⟩

/-- State after the first (successful) verification of the C3
counterexample token against an empty store. -/
def c3Db1 : AuthDb :=
  (register_verify 10 "a@b.cd" "111111" (some c3Tok) "T1" emptyAuthDb).2

/-- Chained registration requests for the C5 counterexample: three allowed
requests at 0s, 60s, 120s. -/
def c5Db1 : AuthDb :=
  (register_request 0 "Ann" "a@b.cd" "secret01" "111111" "ip" true emptyAuthDb).2

/-- Second request state of the C5 counterexample. -/
def c5Db2 : AuthDb :=
  (register_request 60 "Ann" "a@b.cd" "secret01" "222222" "ip" true c5Db1).2

/-- Third request state of the C5 counterexample. -/
def c5Db3 : AuthDb :=
  (register_request 120 "Ann" "a@b.cd" "secret01" "333333" "ip" true c5Db2).2

/-- State for the C6 counterexample: one user, one valid reset-verification
session row, and one pending registration row for the same email. -/
def c6Db : AuthDb :=
  ⟨[⟨1, "Ann", "a@b.cd", "PHOLD", "user", "tk", true⟩],
   [⟨1, "Ann", "a@b.cd", "PH", hash_otp "111111", 300, 0, none⟩],
   [⟨1, "a@b.cd", hash_otp "VT", 300, false, 0, none⟩],
   [⟨1, "a@b.cd", 2, 0, 5⟩], 2, 2, 2, 2⟩

/-- State for the C10 counterexample: the account already exists and a
pending registration row for the same email is still present. -/
def c10Db : AuthDb :=
  ⟨[⟨1, "Ann", "a@b.cd", "PH0", "user", "tk", true⟩],
   [⟨5, "Ann", "a@b.cd", "PH", hash_otp "111111", 300, 0, none⟩],
   [], [], 2, 6, 1, 1⟩

/-- A still-valid registration token matching the C10 counterexample row. -/
def c10Tok : RegToken := ⟨"Ann", "a@b.cd", "PH", hash_otp "111111", 300, 420⟩

example : is_valid_email "a@b.cd" = true := by decide
example : is_valid_email "a@b.c" = false := by decide
example : is_valid_email "a@bcd" = false := by decide
example : is_valid_email "a@b@c.de" = false := by decide
example : is_valid_email "@b.cd" = false := by decide
example : is_valid_email "a@.cd" = false := by decide
example : is_valid_email "user.name+x@mail-srv.example.org" = true := by decide

/-! ## General helper lemmas about list scans -/

theorem find?_filter_incompat {α : Type} (p q : α → Bool) (l : List α)
    (h : ∀ x, p x = true → q x = false) : (l.filter q).find? p = none := by
  rw [List.find?_eq_none]
  intro x hx hpx
  have hq : q x = true := List.of_mem_filter hx
  rw [h x hpx] at hq
  cases hq

theorem find?_append_of_none {α : Type} (p : α → Bool) (l₁ l₂ : List α)
    (h : l₁.find? p = none) : (l₁ ++ l₂).find? p = l₂.find? p := by
  rw [List.find?_append, h, Option.none_or]

theorem find?_map_pres {α : Type} (g : α → α) (p : α → Bool) (l : List α)
    (h : ∀ x, p (g x) = p x) : (l.map g).find? p = (l.find? p).map g := by
  induction l with
  | nil => rfl
  | cons a as ih =>
    by_cases hp : p a = true
    · rw [List.map_cons, List.find?_cons_of_pos _ (by rw [h a]; exact hp),
        List.find?_cons_of_pos _ hp]
      rfl
    · rw [List.map_cons, List.find?_cons_of_neg _ (by rw [h a]; exact hp),
        List.find?_cons_of_neg _ hp]
      exact ih

theorem filter_map_pres {α : Type} (g : α → α) (p : α → Bool) (l : List α)
    (h : ∀ x, p (g x) = p x) : (l.map g).filter p = (l.filter p).map g := by
  induction l with
  | nil => rfl
  | cons a as ih =>
    by_cases hp : p a = true
    · rw [List.map_cons, List.filter_cons_of_pos (by rw [h a]; exact hp),
        List.filter_cons_of_pos hp, List.map_cons, ih]
    · rw [List.map_cons, List.filter_cons_of_neg (by rw [h a]; exact hp),
        List.filter_cons_of_neg hp]
      exact ih

theorem filter_of_all_false {α : Type} (p : α → Bool) (l : List α)
    (h : ∀ x ∈ l, p x = false) : l.filter p = [] := by
  rw [List.filter_eq_nil_iff]
  intro x hx
  rw [h x hx]
  exact Bool.false_ne_true

theorem pickLatest_map (g : ResetOtpRow → ResetOtpRow)
    (hg : ∀ r, (g r).createdAt = r.createdAt) (c : ResetOtpRow) (cs : List ResetOtpRow) :
    (cs.map g).foldl (fun best r => if best.createdAt < r.createdAt then r else best) (g c)
      = g (cs.foldl (fun best r => if best.createdAt < r.createdAt then r else best) c) := by
  induction cs generalizing c with
  | nil => rfl
  | cons d ds ih =>
    rw [List.map_cons, List.foldl_cons, List.foldl_cons]
    by_cases hlt : c.createdAt < d.createdAt
    · rw [if_pos (by rw [hg, hg]; exact hlt), if_pos hlt]
      exact ih d
    · rw [if_neg (by rw [hg, hg]; exact hlt), if_neg hlt]
      exact ih c

theorem latestUnused_map (g : ResetOtpRow → ResetOtpRow) (email : String)
    (l : List ResetOtpRow)
    (hpres : ∀ r, ((g r).email == email && !(g r).used) = (r.email == email && !r.used))
    (hc : ∀ r, (g r).createdAt = r.createdAt) :
    latestUnused (l.map g) email = (latestUnused l email).map g := by
  unfold latestUnused
  rw [filter_map_pres g _ l hpres]
  cases l.filter (fun r => r.email == email && !r.used) with
  | nil => rfl
  | cons c cs =>
    rw [List.map_cons]
    show some _ = Option.map g (some _)
    rw [pickLatest_map g hc c cs]
    rfl

theorem filter_pos_of_filter_neg {α : Type} (p : α → Bool) (l : List α) :
    (l.filter (fun x => !(p x))).filter p = [] := by
  apply filter_of_all_false
  intro x hx
  have hq : (!(p x)) = true := (List.mem_filter.1 hx).2
  simpa using hq

/-- `check_rate_limit` only writes the rate-limit table and its counter;
every other component of the store is unchanged. -/
theorem check_rate_limit_preserves (now : Nat) (email : String) (db : AuthDb) :
    ((check_rate_limit now email db).2).users = db.users ∧
    ((check_rate_limit now email db).2).regOtp = db.regOtp ∧
    ((check_rate_limit now email db).2).resetOtp = db.resetOtp ∧
    ((check_rate_limit now email db).2).nextUserId = db.nextUserId ∧
    ((check_rate_limit now email db).2).nextRegId = db.nextRegId ∧
    ((check_rate_limit now email db).2).nextResetId = db.nextResetId := by
  unfold check_rate_limit
  split
  · exact ⟨rfl, rfl, rfl, rfl, rfl, rfl⟩
  · split
    · exact ⟨rfl, rfl, rfl, rfl, rfl, rfl⟩
    · split
      · exact ⟨rfl, rfl, rfl, rfl, rfl, rfl⟩
      · exact ⟨rfl, rfl, rfl, rfl, rfl, rfl⟩

/-! ## Claim C1 -/

/-- Claim C1 states that `find_admin_for_complaint` returns the admin of
the highest-priority matching assignment.  The code orders the string
priorities inserted by `routes/head.py` ("high" / "medium" / "low") with
`ORDER BY aa.priority DESC`, which is byte-wise lexicographic and ranks
"medium" above both "low" and "high".  On a route with an admin at "high"
and an admin at "medium" — both active admins, active route — the resolver
therefore returns the "medium" admin, contradicting its own docstring
("assign to the one with HIGHEST priority") and the head handler's intended
order.  This theorem evaluates the embedded resolver at that state: the
returned admin is admin 2 ("medium") even though admin 1 holds the "high"
assignment and "high" outranks "medium" in the intended priority order. -/
theorem c1_priority_order_code_bug :
    find_admin_for_complaint noFaults "R1" "" c1Db
      = .ok (some ⟨2, some 7, assignmentReason "R1" "Bob"⟩) ∧
    (∃ a ∈ c1Db.assigns, a.adminId = 1 ∧ a.priority = "high") ∧
    priorityRank "medium" < priorityRank "high" := by
  refine ⟨by decide, ⟨⟨1, 1, 1, "high"⟩, by decide, by decide, by decide⟩, by decide⟩

/-! ## Claim C7 -/

/-- Counterexample to claim C7 as stated: a storage failure while acquiring
the database connection (`get_db()` runs before the try block of
`find_admin_for_complaint`) propagates as an exception out of the resolver
call rather than degrading to the null result. -/
theorem c7_counterexample :
    find_admin_for_complaint ⟨false, true, true⟩ "R1" "" c7Db = .error () := by decide

/-- Amended claim C7: any error raised during the bus lookup or the
assignment-matching query (inside the try block) degrades to the null
(unassigned) result, and with a working connection the resolver never
raises; a connection-acquisition failure does escape the resolver, but the
complaint-creation caller wraps the call in its own try/except, so the
complaint is created unassigned and never fails because of the resolver. -/
theorem c7_amended :
    (∀ (f : Faults) (route bus : String) (db : AssignDb), f.connOk = true →
      ∃ r, find_admin_for_complaint f route bus db = .ok r) ∧
    (∀ (f : Faults) (route bus : String) (db : AssignDb), f.connOk = true →
      f.assignOk = false → route ≠ "" →
      find_admin_for_complaint f route bus db = .ok none) ∧
    (∀ (f : Faults) (bus : String) (db : AssignDb), f.connOk = true →
      f.busOk = false → bus ≠ "" →
      find_admin_for_complaint f "" bus db = .ok none) ∧
    (∀ (f : Faults) (route bus : String) (db : AssignDb), f.connOk = false →
      createComplaintAutoAssign f route bus db = (none, none)) := by
  refine ⟨?_, ?_, ?_, ?_⟩
  · intro f route bus db hconn
    unfold find_admin_for_complaint
    rw [hconn]
    simp only [Bool.not_true, Bool.false_eq_true, if_false]
    cases findAdminForComplaintBody f route bus db with
    | error e => exact ⟨none, rfl⟩
    | ok r => exact ⟨r, rfl⟩
  · intro f route bus db hconn hassign hroute
    have hroute' : (route == "") = false := by simpa using hroute
    unfold find_admin_for_complaint findAdminForComplaintBody
    rw [hconn, hassign, hroute']
    simp
    rw [if_neg hroute]
  · intro f bus db hconn hbus hb
    have hb' : (bus == "") = false := by simpa using hb
    unfold find_admin_for_complaint findAdminForComplaintBody
    rw [hconn, hbus, hb']
    simp
  · intro f route bus db hconn
    unfold createComplaintAutoAssign find_admin_for_complaint
    rw [hconn]
    simp

/-- Concrete instantiation of every part of the amended C7 theorem. -/
theorem c7_amended_witness :
    (∃ r, find_admin_for_complaint ⟨true, true, false⟩ "R1" "" c7Db = .ok r) ∧
    find_admin_for_complaint ⟨true, true, false⟩ "R1" "" c7Db = .ok none ∧
    find_admin_for_complaint ⟨true, false, true⟩ "" "B9" c7Db = .ok none ∧
    createComplaintAutoAssign ⟨false, true, true⟩ "R1" "" c7Db = (none, none) :=
  ⟨c7_amended.1 ⟨true, true, false⟩ "R1" "" c7Db rfl,
   c7_amended.2.1 ⟨true, true, false⟩ "R1" "" c7Db rfl rfl (by decide),
   c7_amended.2.2.1 ⟨true, false, true⟩ "B9" c7Db rfl rfl (by decide),
   c7_amended.2.2.2 ⟨false, true, true⟩ "R1" "" c7Db rfl⟩

/-! ## Claim C8 -/

/-- Claim C8: when the active bus `b` maps to an active route whose name
(or, when the name is empty, code) is `N`, calling the resolver with no
route and `bus_number = b` gives the same result as calling it with
`route_number = N` directly. -/
theorem c8_bus_route_equivalence (db : AssignDb) (b n c : String)
    (hb : b ≠ "") (hl : busRouteLookup db b = some (n, c)) :
    find_admin_for_complaint noFaults "" b db
      = find_admin_for_complaint noFaults (if !(n == "") then n else c) "" db := by
  have hb' : (b == "") = false := by simpa using hb
  unfold find_admin_for_complaint findAdminForComplaintBody
  rw [hl, hb']
  simp only [noFaults, Bool.not_true, Bool.false_eq_true, if_false, beq_self_eq_true,
    Bool.not_false, Bool.true_and, Bool.and_false, Bool.false_eq_true, if_true]

/-- Concrete instantiation of the C8 theorem: bus "B7" resolves to route
name "R1" and both calls return the same admin. -/
theorem c8_bus_route_equivalence_witness :
    busRouteLookup c8Db "B7" = some ("R1", "R1C") ∧
    find_admin_for_complaint noFaults "" "B7" c8Db
      = find_admin_for_complaint noFaults (if !(("R1" : String) == "") then "R1" else "R1C") "" c8Db :=
  ⟨by decide, c8_bus_route_equivalence c8Db "B7" "R1" "R1C" (by decide) (by decide)⟩

/-! ## Claim C2 -/

/-- Counterexample to claim C2 as stated: after a second registration
request issues a fresh code "222222" for `a@b.cd` (deleting and replacing
the pending row), presenting the FIRST request's registration token
together with the superseded code "111111" still verifies successfully and
creates the account — issuance does not invalidate previously issued
client-held tokens, so verifying an earlier code by that path does not fail
with an invalid-code error. -/
theorem c2_counterexample :
    (register_request 0 "Ann" "a@b.cd" "secret01" "111111" "ip" true emptyAuthDb).1
      = .okIssued (regTokenOf 0 "Ann" "a@b.cd" "secret01" "111111") ∧
    regRequestIssued (register_request 10 "Ann" "a@b.cd" "secret01" "222222" "ip" true c2Db1).1
      = true ∧
    (register_verify 20 "a@b.cd" "111111"
        (some (regTokenOf 0 "Ann" "a@b.cd" "secret01" "111111")) "NT" c2Db2).1
      = .created 1 := by
  refine ⟨by decide, by decide, by decide⟩

/-! ## Claim C3 -/

/-- Counterexample to claim C3 as stated: a registration code verified
successfully once (creating the account) and then verified a second time
with the same still-valid registration token is rejected — but with the
already-registered conflict error, which is neither the not-found nor the
invalid-code error the claim allows. -/
theorem c3_counterexample :
    (register_verify 10 "a@b.cd" "111111" (some c3Tok) "T1" emptyAuthDb).1 = .created 1 ∧
    (register_verify 20 "a@b.cd" "111111" (some c3Tok) "T2" c3Db1).1 = .alreadyRegistered ∧
    RegVerifyRes.alreadyRegistered ≠ RegVerifyRes.noPending ∧
    RegVerifyRes.alreadyRegistered ≠ RegVerifyRes.invalidCode := by
  refine ⟨by decide, by decide, by decide, by decide⟩

/-! ## Claim C5 -/

/-- Counterexample to claim C5 as stated: three registration OTP requests
for `a@b.cd` at 0s, 60s and 120s are allowed; the fourth request at 570s is
still inside the 10-minute window and is rejected as rate-limited, but its
`retry_after` value is `int(0.5 minutes) = 0`, not positive. -/
theorem c5_counterexample :
    regRequestIssued (register_request 0 "Ann" "a@b.cd" "secret01" "111111" "ip" true emptyAuthDb).1
      = true ∧
    regRequestIssued (register_request 60 "Ann" "a@b.cd" "secret01" "222222" "ip" true c5Db1).1
      = true ∧
    regRequestIssued (register_request 120 "Ann" "a@b.cd" "secret01" "333333" "ip" true c5Db2).1
      = true ∧
    (register_request 570 "Ann" "a@b.cd" "secret01" "444444" "ip" true c5Db3).1
      = .rateLimited 0 := by
  refine ⟨by decide, by decide, by decide, by decide⟩

/-! ## Claim C6 -/

/-- Counterexample to claim C6 as stated: a successful `reset_password`
leaves the pending REGISTRATION row for the same email untouched — only
`password_reset_otp` and `otp_rate_limit` rows are deleted, so "deletes all
pending OTP rows for that email in every flow" fails for the registration
flow. -/
theorem c6_counterexample :
    (reset_password 10 "a@b.cd" "VT" "newpass01" c6Db).1 = .ok ∧
    ((reset_password 10 "a@b.cd" "VT" "newpass01" c6Db).2).regOtp = c6Db.regOtp ∧
    c6Db.regOtp ≠ [] := by
  refine ⟨by decide, by decide, by decide⟩

/-! ## Claim C10 -/

/-- Counterexample to claim C10 as stated: when verification proceeds via a
valid registration token and the account already exists, the handler
returns the conflict error but does NOT delete the still-present pending
registration row (`pending_id` is `None` on the token path), contradicting
"deletes the pending registration record if present". -/
theorem c10_counterexample :
    register_verify 20 "a@b.cd" "111111" (some c10Tok) "NT" c10Db = (.alreadyRegistered, c10Db) ∧
    c10Db.regOtp.find? (fun r => r.email == "a@b.cd")
      = some ⟨5, "Ann", "a@b.cd", "PH", hash_otp "111111", 300, 0, none⟩ := by
  refine ⟨by decide, by decide⟩

/-! ## Claim C9 -/

/-- Claim C9: for an existing but deactivated account, `request_otp`
returns the distinct 403 deactivated error (leaving the store untouched);
for a non-existent account it returns the generic anti-enumeration success;
and the generic success is produced ONLY when no user row exists for the
email. -/
theorem c9_deactivated_distinct_from_generic :
    (∀ (now : Nat) (email otp ip : String) (eok : Bool) (db : AuthDb) (u : UserRow),
      email ≠ "" → db.users.find? (fun w => w.email == email) = some u → u.isActive = false →
      request_otp now email otp ip eok db = (.deactivated, db)) ∧
    (∀ (now : Nat) (email otp ip : String) (eok : Bool) (db : AuthDb),
      email ≠ "" → db.users.find? (fun w => w.email == email) = none →
      request_otp now email otp ip eok db = (.genericOk, db)) ∧
    (∀ (now : Nat) (email otp ip : String) (eok : Bool) (db : AuthDb),
      (request_otp now email otp ip eok db).1 = .genericOk →
      db.users.find? (fun w => w.email == email) = none) := by
  refine ⟨?_, ?_, ?_⟩
  · intro now email otp ip eok db u hne hfind hact
    have h1 : (email == "") = false := by simpa using hne
    simp [request_otp, h1, hfind, hact]
  · intro now email otp ip eok db hne hfind
    have h1 : (email == "") = false := by simpa using hne
    simp [request_otp, h1, hfind]
  · intro now email otp ip eok db hres
    by_cases h1 : email = ""
    · subst h1
      simp [request_otp] at hres
    · have h1' : (email == "") = false := by simpa using h1
      cases hfind : db.users.find? (fun w => w.email == email) with
      | none => rfl
      | some u =>
        by_cases hact : u.isActive = true
        · rcases hcrl : check_rate_limit now email db with ⟨⟨b, k⟩, db1⟩
          cases b
          · simp [request_otp, h1', hfind, hact, hcrl] at hres
          · cases eok <;> simp [request_otp, h1', hfind, hact, hcrl] at hres
        · have hact' : u.isActive = false := by
            cases hia : u.isActive with
            | false => rfl
            | true => exact absurd hia hact
          simp [request_otp, h1', hfind, hact'] at hres

/-- Concrete instantiation of every part of the C9 theorem, applying it to
a one-user store with a deactivated account and to an empty store. -/
theorem c9_deactivated_distinct_from_generic_witness :
    request_otp 5 "a@b.cd" "111111" "ip" true
        ⟨[⟨1, "Ann", "a@b.cd", "PH", "user", "tk", false⟩], [], [], [], 2, 1, 1, 1⟩
      = (.deactivated, ⟨[⟨1, "Ann", "a@b.cd", "PH", "user", "tk", false⟩], [], [], [], 2, 1, 1, 1⟩) ∧
    request_otp 5 "b@b.cd" "111111" "ip" true emptyAuthDb = (.genericOk, emptyAuthDb) ∧
    ([] : List UserRow).find? (fun w => w.email == "b@b.cd") = none :=
  ⟨c9_deactivated_distinct_from_generic.1 5 "a@b.cd" "111111" "ip" true
     ⟨[⟨1, "Ann", "a@b.cd", "PH", "user", "tk", false⟩], [], [], [], 2, 1, 1, 1⟩
     ⟨1, "Ann", "a@b.cd", "PH", "user", "tk", false⟩ (by decide) (by decide) (by decide),
   c9_deactivated_distinct_from_generic.2.1 5 "b@b.cd" "111111" "ip" true emptyAuthDb
     (by decide) (by decide),
   c9_deactivated_distinct_from_generic.2.2 5 "b@b.cd" "111111" "ip" true emptyAuthDb
     (by decide)⟩

/-! ## Claim C4 -/

/-- Claim C4: a pending code whose expiry timestamp is in the past fails
verification with the expired error even though the supplied code's hash
matches, and on the DB-backed path the stale row is marked used (password
reset) or deleted (registration), after which a retry finds no active
pending code.  The last hypothesis of each part states that the matched row
is the only live pending row for the email, which pins down the state after
the deletion/marking. -/
theorem c4_expired_code_rejected_and_invalidated :
    (∀ (now now2 : Nat) (email otp vtok vtok2 : String) (db : AuthDb) (R : ResetOtpRow),
      email ≠ "" → otp.data.all Char.isDigit = true → otp.length = OTP_LENGTH →
      latestUnused db.resetOtp email = some R →
      hash_otp otp = R.otpHash → R.expiresAt < now →
      (∀ r ∈ db.resetOtp, (r.email == email && !r.used) = true → r.id = R.id) →
      verify_otp now email otp vtok db =
        (.expired, { db with resetOtp := db.resetOtp.map (fun r =>
          if r.id == R.id then { r with used := true } else r) }) ∧
      verify_otp now2 email otp vtok2
          { db with resetOtp := db.resetOtp.map (fun r =>
            if r.id == R.id then { r with used := true } else r) }
        = (.noActive, { db with resetOtp := db.resetOtp.map (fun r =>
            if r.id == R.id then { r with used := true } else r) })) ∧
    (∀ (now now2 : Nat) (email otp ntok ntok2 : String) (db : AuthDb) (p : RegOtpRow),
      email ≠ "" → otp.data.all Char.isDigit = true → otp.length = OTP_LENGTH →
      db.regOtp.find? (fun r => r.email == email) = some p →
      hash_otp otp = p.otpHash → p.expiresAt < now →
      (∀ r ∈ db.regOtp, (r.email == email) = true → r.id = p.id) →
      register_verify now email otp none ntok db =
        (.expired, { db with regOtp := db.regOtp.filter (fun r => !(r.id == p.id)) }) ∧
      register_verify now2 email otp none ntok2
          { db with regOtp := db.regOtp.filter (fun r => !(r.id == p.id)) }
        = (.noPending, { db with regOtp := db.regOtp.filter (fun r => !(r.id == p.id)) })) := by
  constructor
  · intro now now2 email otp vtok vtok2 db R hne hdig hlen hlat hhash hexp honly
    have h1 : (email == "") = false := by simpa using hne
    have h2 : (otp == "") = false := by
      have : otp ≠ "" := by
        intro h
        rw [h] at hlen
        exact absurd hlen (by decide)
      simpa using this
    have hvh : verify_otp_hash otp R.otpHash = true := by
      simp [verify_otp_hash, hhash]
    constructor
    · simp [verify_otp, h1, h2, hdig, hlen, hlat, hvh, hexp]
    · have hfilt : ((db.resetOtp.map (fun r =>
          if r.id == R.id then { r with used := true } else r)).filter
            (fun r => r.email == email && !r.used)) = [] := by
        apply filter_of_all_false
        intro y hy
        rcases List.mem_map.1 hy with ⟨x, hx, rfl⟩
        by_cases hid : x.id == R.id
        · rw [if_pos hid]
          simp
        · rw [if_neg hid]
          cases hpx : (x.email == email && !x.used) with
          | false => rfl
          | true => exact absurd (by simpa using honly x hx hpx) (by simpa using hid)
      have key : ∀ (l2 : List ResetOtpRow),
          l2.filter (fun r => r.email == email && !r.used) = [] →
          verify_otp now2 email otp vtok2 { db with resetOtp := l2 }
            = (.noActive, { db with resetOtp := l2 }) := by
        intro l2 hf
        have hl : latestUnused l2 email = none := by
          unfold latestUnused
          rw [hf]
        simp [verify_otp, h1, h2, hdig, hlen, hl]
      exact key _ hfilt
  · intro now now2 email otp ntok ntok2 db p hne hdig hlen hfind hhash hexp honly
    have h1 : (email == "") = false := by simpa using hne
    have h2 : (otp == "") = false := by
      have : otp ≠ "" := by
        intro h
        rw [h] at hlen
        exact absurd hlen (by decide)
      simpa using this
    have hvh : verify_otp_hash otp p.otpHash = true := by
      simp [verify_otp_hash, hhash]
    constructor
    · simp [register_verify, registerVerifyPending, decodeRegistrationToken, h1, h2, hdig, hlen,
        hfind, hvh, hexp]
    · have hfind2 : ((db.regOtp.filter (fun r => !(r.id == p.id))).find?
          (fun r => r.email == email)) = none := by
        rw [List.find?_eq_none]
        intro x hx hpx
        have hne2 : (!(x.id == p.id)) = true := (List.mem_filter.1 hx).2
        have hmem : x ∈ db.regOtp := (List.mem_filter.1 hx).1
        have := honly x hmem (by simpa using hpx)
        simp [this] at hne2
      have key : ∀ (l2 : List RegOtpRow),
          l2.find? (fun r => r.email == email) = none →
          register_verify now2 email otp none ntok2 { db with regOtp := l2 }
            = (.noPending, { db with regOtp := l2 }) := by
        intro l2 hf
        simp [register_verify, decodeRegistrationToken, h1, h2, hdig, hlen, hf]
      exact key _ hfind2

/-- Concrete instantiation of both parts of the C4 theorem: a correct but
expired code is rejected as expired in both flows, the stale row is marked
used / deleted, and the retry finds no pending code. -/
theorem c4_expired_code_rejected_and_invalidated_witness :
    (latestUnused [⟨1, "a@b.cd", hash_otp "111111", 300, false, 0, none⟩] "a@b.cd"
      = some ⟨1, "a@b.cd", hash_otp "111111", 300, false, 0, none⟩) ∧
    verify_otp 301 "a@b.cd" "111111" "VT"
        ⟨[], [], [⟨1, "a@b.cd", hash_otp "111111", 300, false, 0, none⟩], [], 1, 1, 2, 1⟩
      = (.expired, ⟨[], [], [⟨1, "a@b.cd", hash_otp "111111", 300, true, 0, none⟩], [], 1, 1, 2, 1⟩) ∧
    (register_verify 301 "a@b.cd" "111111" none "NT"
        ⟨[], [⟨1, "Ann", "a@b.cd", "PH", hash_otp "111111", 300, 0, none⟩], [], [], 1, 2, 1, 1⟩).1
      = .expired := by
  have h := c4_expired_code_rejected_and_invalidated
  refine ⟨by decide, ?_, ?_⟩
  · have h2 := (h.1 301 400 "a@b.cd" "111111" "VT" "VT2"
      ⟨[], [], [⟨1, "a@b.cd", hash_otp "111111", 300, false, 0, none⟩], [], 1, 1, 2, 1⟩
      ⟨1, "a@b.cd", hash_otp "111111", 300, false, 0, none⟩
      (by decide) (by decide) (by decide) (by decide) (by decide) (by decide) (by decide)).1
    simpa using h2
  · have h2 := (h.2 301 400 "a@b.cd" "111111" "NT" "NT2"
      ⟨[], [⟨1, "Ann", "a@b.cd", "PH", hash_otp "111111", 300, 0, none⟩], [], [], 1, 2, 1, 1⟩
      ⟨1, "Ann", "a@b.cd", "PH", hash_otp "111111", 300, 0, none⟩
      (by decide) (by decide) (by decide) (by decide) (by decide) (by decide) (by decide)).1
    rw [h2]

/-- Amended claim C3: a code verified successfully once can never be
verified successfully again, and the error of the second attempt is: the
invalid-code error for the password-reset flow (the row's hash now holds
the verification-token hash), the not-found error for the registration
flow without a token, and the already-registered conflict error when the
still-valid registration token is presented again. -/
theorem c3_amended_no_replay :
    (∀ (now now2 : Nat) (email c vtok vtok2 : String) (db : AuthDb) (R : ResetOtpRow),
      email ≠ "" → c.data.all Char.isDigit = true → c.length = OTP_LENGTH →
      latestUnused db.resetOtp email = some R →
      hash_otp c = R.otpHash → ¬ R.expiresAt < now → vtok ≠ c →
      verify_otp now email c vtok db =
        (.verified vtok, { db with resetOtp := db.resetOtp.map (fun r =>
          if r.id == R.id then { r with otpHash := hash_otp vtok } else r) }) ∧
      verify_otp now2 email c vtok2
          { db with resetOtp := db.resetOtp.map (fun r =>
            if r.id == R.id then { r with otpHash := hash_otp vtok } else r) }
        = (.invalid, { db with resetOtp := db.resetOtp.map (fun r =>
            if r.id == R.id then { r with otpHash := hash_otp vtok } else r) })) ∧
    (∀ (now now2 : Nat) (email otp ntok ntok2 : String) (db : AuthDb) (p : RegOtpRow),
      email ≠ "" → otp.data.all Char.isDigit = true → otp.length = OTP_LENGTH →
      db.regOtp.find? (fun r => r.email == email) = some p →
      hash_otp otp = p.otpHash → ¬ p.expiresAt < now →
      db.users.any (fun u => u.email == email) = false →
      (∀ r ∈ db.regOtp, (r.email == email) = true → r.id = p.id) →
      register_verify now email otp none ntok db =
        (.created db.nextUserId,
         { db with
             users := db.users ++ [⟨db.nextUserId, p.name, p.email, p.passwordHash, "user", ntok, true⟩],
             regOtp := db.regOtp.filter (fun r => !(r.id == p.id)),
             rateLimit := db.rateLimit.filter (fun r => !(r.email == email)),
             nextUserId := db.nextUserId + 1 }) ∧
      register_verify now2 email otp none ntok2
          { db with
              users := db.users ++ [⟨db.nextUserId, p.name, p.email, p.passwordHash, "user", ntok, true⟩],
              regOtp := db.regOtp.filter (fun r => !(r.id == p.id)),
              rateLimit := db.rateLimit.filter (fun r => !(r.email == email)),
              nextUserId := db.nextUserId + 1 }
        = (.noPending,
           { db with
               users := db.users ++ [⟨db.nextUserId, p.name, p.email, p.passwordHash, "user", ntok, true⟩],
               regOtp := db.regOtp.filter (fun r => !(r.id == p.id)),
               rateLimit := db.rateLimit.filter (fun r => !(r.email == email)),
               nextUserId := db.nextUserId + 1 })) ∧
    (∀ (now now2 : Nat) (email otp ntok ntok2 : String) (db : AuthDb) (t : RegToken),
      email ≠ "" → otp.data.all Char.isDigit = true → otp.length = OTP_LENGTH →
      now < t.exp → t.email = email → hash_otp otp = t.otpHash → ¬ t.expiresAt < now →
      db.users.any (fun u => u.email == email) = false →
      now2 < t.exp → ¬ t.expiresAt < now2 →
      register_verify now email otp (some t) ntok db =
        (.created db.nextUserId,
         { db with
             users := db.users ++ [⟨db.nextUserId, t.name, t.email, t.passwordHash, "user", ntok, true⟩],
             regOtp := db.regOtp.filter (fun r => !(r.email == email)),
             rateLimit := db.rateLimit.filter (fun r => !(r.email == email)),
             nextUserId := db.nextUserId + 1 }) ∧
      register_verify now2 email otp (some t) ntok2
          { db with
              users := db.users ++ [⟨db.nextUserId, t.name, t.email, t.passwordHash, "user", ntok, true⟩],
              regOtp := db.regOtp.filter (fun r => !(r.email == email)),
              rateLimit := db.rateLimit.filter (fun r => !(r.email == email)),
              nextUserId := db.nextUserId + 1 }
        = (.alreadyRegistered,
           { db with
               users := db.users ++ [⟨db.nextUserId, t.name, t.email, t.passwordHash, "user", ntok, true⟩],
               regOtp := db.regOtp.filter (fun r => !(r.email == email)),
               rateLimit := db.rateLimit.filter (fun r => !(r.email == email)),
               nextUserId := db.nextUserId + 1 })) := by
  refine ⟨?_, ?_, ?_⟩
  · intro now now2 email c vtok vtok2 db R hne hdig hlen hlat hhash hexp hvc
    have h1 : (email == "") = false := by simpa using hne
    have h2 : (c == "") = false := by
      have : c ≠ "" := by
        intro h
        rw [h] at hlen
        exact absurd hlen (by decide)
      simpa using this
    have hvh : verify_otp_hash c R.otpHash = true := by simp [verify_otp_hash, hhash]
    refine ⟨by simp [verify_otp, h1, h2, hdig, hlen, hlat, hvh, hexp], ?_⟩
    have hg : ∀ r : ResetOtpRow,
        (((if r.id == R.id then { r with otpHash := hash_otp vtok } else r) : ResetOtpRow).email
            == email &&
          !((if r.id == R.id then { r with otpHash := hash_otp vtok } else r) : ResetOtpRow).used)
          = (r.email == email && !r.used) := by
      intro r
      by_cases hid : (r.id == R.id) = true
      · rw [if_pos hid]
      · rw [if_neg hid]
    have hcr : ∀ r : ResetOtpRow,
        ((if r.id == R.id then { r with otpHash := hash_otp vtok } else r) : ResetOtpRow).createdAt
          = r.createdAt := by
      intro r
      by_cases hid : (r.id == R.id) = true
      · rw [if_pos hid]
      · rw [if_neg hid]
    have hlat2 := latestUnused_map
      (fun r => if r.id == R.id then { r with otpHash := hash_otp vtok } else r)
      email db.resetOtp hg hcr
    rw [hlat] at hlat2
    have hvf : verify_otp_hash c
        ((if R.id == R.id then { R with otpHash := hash_otp vtok } else R) : ResetOtpRow).otpHash
          = false := by
      have hne2 : hash_otp c ≠ hash_otp vtok := by
        intro he
        exact hvc (hash_otp_injective he).symm
      simp [verify_otp_hash, hne2]
    have key : ∀ (l2 : List ResetOtpRow) (R2 : ResetOtpRow),
        latestUnused l2 email = some R2 →
        verify_otp_hash c R2.otpHash = false →
        verify_otp now2 email c vtok2 { db with resetOtp := l2 }
          = (.invalid, { db with resetOtp := l2 }) := by
      intro l2 R2 hl hv
      simp [verify_otp, h1, h2, hdig, hlen, hl, hv]
    exact key _ _ (hlat2.trans rfl) hvf
  · intro now now2 email otp ntok ntok2 db p hne hdig hlen hfind hhash hexp husers honly
    have h1 : (email == "") = false := by simpa using hne
    have h2 : (otp == "") = false := by
      have : otp ≠ "" := by
        intro h
        rw [h] at hlen
        exact absurd hlen (by decide)
      simpa using this
    have hvh : verify_otp_hash otp p.otpHash = true := by simp [verify_otp_hash, hhash]
    refine ⟨by simp [register_verify, registerVerifyPending, decodeRegistrationToken,
      h1, h2, hdig, hlen, hfind, hvh, hexp, husers], ?_⟩
    have hfind2 : ((db.regOtp.filter (fun r => !(r.id == p.id))).find?
        (fun r => r.email == email)) = none := by
      rw [List.find?_eq_none]
      intro x hx hpx
      have hne2 : (!(x.id == p.id)) = true := (List.mem_filter.1 hx).2
      have hmem : x ∈ db.regOtp := (List.mem_filter.1 hx).1
      have := honly x hmem (by simpa using hpx)
      simp [this] at hne2
    have key : ∀ (lu : List UserRow) (l2 : List RegOtpRow) (lr : List RateRow) (k : Nat),
        l2.find? (fun r => r.email == email) = none →
        register_verify now2 email otp none ntok2
            { db with users := lu, regOtp := l2, rateLimit := lr, nextUserId := k }
          = (.noPending, { db with users := lu, regOtp := l2, rateLimit := lr, nextUserId := k }) := by
      intro lu l2 lr k hf
      simp [register_verify, decodeRegistrationToken, h1, h2, hdig, hlen, hf]
    exact key _ _ _ _ hfind2
  · intro now now2 email otp ntok ntok2 db t hne hdig hlen hnow hteq hhash hexp husers hnow2 hexp2
    have h1 : (email == "") = false := by simpa using hne
    have h2 : (otp == "") = false := by
      have : otp ≠ "" := by
        intro h
        rw [h] at hlen
        exact absurd hlen (by decide)
      simpa using this
    have hvh : verify_otp_hash otp t.otpHash = true := by simp [verify_otp_hash, hhash]
    refine ⟨by simp [register_verify, registerVerifyPending, decodeRegistrationToken,
      h1, h2, hdig, hlen, hnow, hteq, hvh, hexp, husers], ?_⟩
    have hany : (db.users ++
        ([⟨db.nextUserId, t.name, t.email, t.passwordHash, "user", ntok, true⟩] : List UserRow)).any
          (fun u => u.email == email) = true := by
      rw [List.any_append]
      simp [hteq]
    simp [register_verify, registerVerifyPending, decodeRegistrationToken,
      h1, h2, hdig, hlen, hnow2, hteq, hvh, hexp2, hany]

/-- Concrete instantiation of all three parts of the amended C3 theorem:
the reset code verifies once then fails as invalid, the registration code
verifies once then fails as not-found without a token, and the token replay
is rejected with the conflict error. -/
theorem c3_amended_no_replay_witness :
    (verify_otp 10 "a@b.cd" "111111" "VT"
        ⟨[], [], [⟨1, "a@b.cd", hash_otp "111111", 300, false, 0, none⟩], [], 1, 1, 2, 1⟩).1
      = .verified "VT" ∧
    (verify_otp 20 "a@b.cd" "111111" "VT2"
        (verify_otp 10 "a@b.cd" "111111" "VT"
          ⟨[], [], [⟨1, "a@b.cd", hash_otp "111111", 300, false, 0, none⟩], [], 1, 1, 2, 1⟩).2).1
      = .invalid ∧
    (register_verify 10 "b@b.cd" "222222" none "NT"
        ⟨[], [⟨1, "Bea", "b@b.cd", "PH", hash_otp "222222", 300, 0, none⟩], [], [], 1, 2, 1, 1⟩).1
      = .created 1 ∧
    (register_verify 20 "b@b.cd" "222222" none "NT2"
        (register_verify 10 "b@b.cd" "222222" none "NT"
          ⟨[], [⟨1, "Bea", "b@b.cd", "PH", hash_otp "222222", 300, 0, none⟩], [], [], 1, 2, 1, 1⟩).2).1
      = .noPending ∧
    (register_verify 10 "c@b.cd" "333333"
        (some ⟨"Cee", "c@b.cd", "PH", hash_otp "333333", 300, 420⟩) "NT" emptyAuthDb).1
      = .created 1 ∧
    (register_verify 20 "c@b.cd" "333333"
        (some ⟨"Cee", "c@b.cd", "PH", hash_otp "333333", 300, 420⟩) "NT2"
        (register_verify 10 "c@b.cd" "333333"
          (some ⟨"Cee", "c@b.cd", "PH", hash_otp "333333", 300, 420⟩) "NT" emptyAuthDb).2).1
      = .alreadyRegistered := by
  have hA := c3_amended_no_replay.1 10 20 "a@b.cd" "111111" "VT" "VT2"
    ⟨[], [], [⟨1, "a@b.cd", hash_otp "111111", 300, false, 0, none⟩], [], 1, 1, 2, 1⟩
    ⟨1, "a@b.cd", hash_otp "111111", 300, false, 0, none⟩
    (by decide) (by decide) (by decide) (by decide) (by decide) (by decide) (by decide)
  have hB := c3_amended_no_replay.2.1 10 20 "b@b.cd" "222222" "NT" "NT2"
    ⟨[], [⟨1, "Bea", "b@b.cd", "PH", hash_otp "222222", 300, 0, none⟩], [], [], 1, 2, 1, 1⟩
    ⟨1, "Bea", "b@b.cd", "PH", hash_otp "222222", 300, 0, none⟩
    (by decide) (by decide) (by decide) (by decide) (by decide) (by decide) (by decide) (by decide)
  have hC := c3_amended_no_replay.2.2 10 20 "c@b.cd" "333333" "NT" "NT2" emptyAuthDb
    ⟨"Cee", "c@b.cd", "PH", hash_otp "333333", 300, 420⟩
    (by decide) (by decide) (by decide) (by decide) (by decide) (by decide) (by decide)
    (by decide) (by decide) (by decide)
  exact ⟨congrArg Prod.fst hA.1, congrArg Prod.fst hA.2, congrArg Prod.fst hB.1,
    congrArg Prod.fst hB.2, congrArg Prod.fst hC.1, congrArg Prod.fst hC.2⟩

/-- Amended claim C2: issuing a fresh code invalidates all previously
issued unused codes on the stored-record paths — after `register_request`
(delete-and-insert) or `register_resend` (in-place update) issues a new
registration code, verifying any earlier code without a token fails with
the invalid-code error, and after `request_otp` issues a new reset code,
verifying an earlier reset code fails with the invalid-code error; only a
previously issued client-held registration token escapes this (see the
counterexample). -/
theorem c2_amended_issuance_invalidates_stored (email : String) :
    (∀ (now now2 : Nat) (name pw otp1 otp2 ip ntok : String) (eok : Bool) (db : AuthDb),
      2 ≤ name.length → email ≠ "" → is_valid_email email = true →
      6 ≤ pw.length → pw.length ≤ 128 →
      db.users.any (fun u => u.email == email) = false →
      (check_rate_limit now email db).1.1 = true →
      otp1 ≠ otp2 → otp1.data.all Char.isDigit = true → otp1.length = OTP_LENGTH →
      register_verify now2 email otp1 none ntok
          ((register_request now name email pw otp2 ip eok db).2)
        = (.invalidCode, (register_request now name email pw otp2 ip eok db).2)) ∧
    (∀ (now now2 : Nat) (otp1 otp2 ntok : String) (eok : Bool) (db : AuthDb) (p : RegOtpRow),
      email ≠ "" →
      db.regOtp.find? (fun r => r.email == email) = some p →
      (check_rate_limit now email db).1.1 = true →
      otp1 ≠ otp2 → otp1.data.all Char.isDigit = true → otp1.length = OTP_LENGTH →
      register_verify now2 email otp1 none ntok
          ((register_resend now email none otp2 eok db).2)
        = (.invalidCode, (register_resend now email none otp2 eok db).2)) ∧
    (∀ (now now2 : Nat) (otp1 otp2 ip vt : String) (eok : Bool) (db : AuthDb) (u : UserRow),
      email ≠ "" →
      db.users.find? (fun w => w.email == email) = some u → u.isActive = true →
      (check_rate_limit now email db).1.1 = true →
      otp1 ≠ otp2 → otp1.data.all Char.isDigit = true → otp1.length = OTP_LENGTH →
      verify_otp now2 email otp1 vt ((request_otp now email otp2 ip eok db).2)
        = (.invalid, (request_otp now email otp2 ip eok db).2)) := by
  have hkeyReg : ∀ (now2 : Nat) (otp1 ntok : String) (dbx : AuthDb) (q : RegOtpRow),
      (email == "") = false → otp1.data.all Char.isDigit = true → otp1.length = OTP_LENGTH →
      dbx.regOtp.find? (fun r => r.email == email) = some q →
      verify_otp_hash otp1 q.otpHash = false →
      register_verify now2 email otp1 none ntok dbx = (.invalidCode, dbx) := by
    intro now2 otp1 ntok dbx q h1 hdig hlen hf hv
    have h2 : (otp1 == "") = false := by
      have : otp1 ≠ "" := by
        intro h
        rw [h] at hlen
        exact absurd hlen (by decide)
      simpa using this
    simp [register_verify, registerVerifyPending, decodeRegistrationToken,
      h1, h2, hdig, hlen, hf, hv]
  refine ⟨?_, ?_, ?_⟩
  · intro now now2 name pw otp1 otp2 ip ntok eok db hname hne hval hpw1 hpw2 husers hallow
      hdiff hdig hlen
    have h1 : (email == "") = false := by simpa using hne
    have hname' : ¬ name.length < 2 := by omega
    have hpw1' : ¬ pw.length < 6 := by omega
    have hpw2' : ¬ 128 < pw.length := by omega
    rcases hcrl : check_rate_limit now email db with ⟨⟨b, k⟩, db1⟩
    rw [hcrl] at hallow
    have hb : b = true := hallow
    subst hb
    have hreq2 : (register_request now name email pw otp2 ip eok db).2
        = { db1 with
              regOtp := (db1.regOtp.filter (fun r => !(r.email == email))) ++
                [⟨db1.nextRegId, name, email, generate_password_hash pw, hash_otp otp2,
                  now + OTP_EXPIRY_SECONDS, now, some ip⟩],
              nextRegId := db1.nextRegId + 1 } := by
      simp [register_request, hname', h1, hval, hpw1', hpw2', husers, hcrl]
    rw [hreq2]
    have hfind : (((db1.regOtp.filter (fun r => !(r.email == email))) ++
        [⟨db1.nextRegId, name, email, generate_password_hash pw, hash_otp otp2,
          now + OTP_EXPIRY_SECONDS, now, some ip⟩] : List RegOtpRow)).find?
          (fun r => r.email == email)
        = some ⟨db1.nextRegId, name, email, generate_password_hash pw, hash_otp otp2,
            now + OTP_EXPIRY_SECONDS, now, some ip⟩ := by
      rw [find?_append_of_none _ _ _
        (find?_filter_incompat _ _ _ (by intro x hx; simp at hx; simp [hx]))]
      exact List.find?_cons_of_pos _ (by simp)
    have hv : verify_otp_hash otp1 (hash_otp otp2) = false := by
      have hne2 : hash_otp otp1 ≠ hash_otp otp2 := fun he => hdiff (hash_otp_injective he)
      simp [verify_otp_hash, hne2]
    exact hkeyReg now2 otp1 ntok _ _ h1 hdig hlen hfind hv
  · intro now now2 otp1 otp2 ntok eok db p hne hfind hallow hdiff hdig hlen
    have h1 : (email == "") = false := by simpa using hne
    rcases hcrl : check_rate_limit now email db with ⟨⟨b, k⟩, db1⟩
    rw [hcrl] at hallow
    have hb : b = true := hallow
    subst hb
    have hres2 : (register_resend now email none otp2 eok db).2
        = { db1 with regOtp := db1.regOtp.map (fun r =>
            if r.id == p.id then
              { r with otpHash := hash_otp otp2,
                       expiresAt := now + OTP_EXPIRY_SECONDS,
                       createdAt := now }
            else r) } := by
      simp [register_resend, decodeRegistrationToken, registerResendIssue, h1, hfind, hcrl]
    rw [hres2]
    have hfind2 : ((db1.regOtp.map (fun r =>
        if r.id == p.id then
          { r with otpHash := hash_otp otp2,
                   expiresAt := now + OTP_EXPIRY_SECONDS,
                   createdAt := now }
        else r)).find? (fun r => r.email == email))
        = some (if p.id == p.id then
            { p with otpHash := hash_otp otp2,
                     expiresAt := now + OTP_EXPIRY_SECONDS,
                     createdAt := now }
          else p) := by
      rw [find?_map_pres _ _ _ (by
        intro x
        by_cases hid : (x.id == p.id) = true
        · rw [if_pos hid]
        · rw [if_neg hid])]
      have hfind1 : db1.regOtp.find? (fun r => r.email == email) = some p := by
        have hp := (check_rate_limit_preserves now email db).2.1
        rw [hcrl] at hp
        rw [hp]
        exact hfind
      rw [hfind1]
      rfl
    have hv : verify_otp_hash otp1 ((if p.id == p.id then
        { p with otpHash := hash_otp otp2,
                 expiresAt := now + OTP_EXPIRY_SECONDS,
                 createdAt := now }
        else p) : RegOtpRow).otpHash = false := by
      have hne2 : hash_otp otp1 ≠ hash_otp otp2 := fun he => hdiff (hash_otp_injective he)
      simp [verify_otp_hash, hne2]
    exact hkeyReg now2 otp1 ntok _ _ h1 hdig hlen hfind2 hv
  · intro now now2 otp1 otp2 ip vt eok db u hne hfindu hact hallow hdiff hdig hlen
    have h1 : (email == "") = false := by simpa using hne
    have h2 : (otp1 == "") = false := by
      have : otp1 ≠ "" := by
        intro h
        rw [h] at hlen
        exact absurd hlen (by decide)
      simpa using this
    rcases hcrl : check_rate_limit now email db with ⟨⟨b, k⟩, db1⟩
    rw [hcrl] at hallow
    have hb : b = true := hallow
    subst hb
    have hreq2 : (request_otp now email otp2 ip eok db).2
        = { db1 with
              resetOtp := (db1.resetOtp.map (fun r =>
                if r.email == email && !r.used then { r with used := true } else r)) ++
                [⟨db1.nextResetId, email, hash_otp otp2, now + OTP_EXPIRY_SECONDS, false, now,
                  some ip⟩],
              nextResetId := db1.nextResetId + 1 } := by
      simp [request_otp, h1, hfindu, hact, hcrl]
    rw [hreq2]
    have hlat : latestUnused ((db1.resetOtp.map (fun r =>
        if r.email == email && !r.used then { r with used := true } else r)) ++
        [⟨db1.nextResetId, email, hash_otp otp2, now + OTP_EXPIRY_SECONDS, false, now, some ip⟩])
        email
        = some ⟨db1.nextResetId, email, hash_otp otp2, now + OTP_EXPIRY_SECONDS, false, now,
            some ip⟩ := by
      unfold latestUnused
      rw [List.filter_append]
      rw [filter_of_all_false _ _ (by
        intro y hy
        rcases List.mem_map.1 hy with ⟨x, hx, rfl⟩
        by_cases hpx : (x.email == email && !x.used) = true
        · rw [if_pos hpx]
          simp
        · rw [if_neg hpx]
          cases hq : (x.email == email && !x.used) with
          | false => rfl
          | true => exact absurd hq hpx)]
      simp
    have hv : verify_otp_hash otp1 (hash_otp otp2) = false := by
      have hne2 : hash_otp otp1 ≠ hash_otp otp2 := fun he => hdiff (hash_otp_injective he)
      simp [verify_otp_hash, hne2]
    have key : ∀ (l2 : List ResetOtpRow) (R2 : ResetOtpRow) (k2 : Nat),
        latestUnused l2 email = some R2 →
        verify_otp_hash otp1 R2.otpHash = false →
        verify_otp now2 email otp1 vt { db1 with resetOtp := l2, nextResetId := k2 }
          = (.invalid, { db1 with resetOtp := l2, nextResetId := k2 }) := by
      intro l2 R2 k2 hl hvv
      simp [verify_otp, h1, h2, hdig, hlen, hl, hvv]
    exact key _ _ _ hlat hv

/-- Concrete instantiation of all three parts of the amended C2 theorem:
after a fresh code "222222" is issued by each issuing operation, verifying
the superseded code "111111" through the stored-record path fails with the
invalid-code error. -/
theorem c2_amended_issuance_invalidates_stored_witness :
    (register_verify 20 "a@b.cd" "111111" none "NT"
        ((register_request 0 "Ann" "a@b.cd" "secret01" "222222" "ip" true emptyAuthDb).2)).1
      = .invalidCode ∧
    (register_verify 20 "a@b.cd" "111111" none "NT"
        ((register_resend 0 "a@b.cd" none "222222" true
          ⟨[], [⟨1, "Ann", "a@b.cd", "PH", hash_otp "111111", 300, 0, none⟩], [], [],
           1, 2, 1, 1⟩).2)).1
      = .invalidCode ∧
    (verify_otp 20 "a@b.cd" "111111" "VT"
        ((request_otp 0 "a@b.cd" "222222" "ip" true
          ⟨[⟨1, "Ann", "a@b.cd", "PH", "user", "tk", true⟩], [], [], [], 2, 1, 1, 1⟩).2)).1
      = .invalid := by
  have h := c2_amended_issuance_invalidates_stored "a@b.cd"
  refine ⟨?_, ?_, ?_⟩
  · exact congrArg Prod.fst (h.1 0 20 "Ann" "secret01" "111111" "222222" "ip" "NT" true
      emptyAuthDb (by decide) (by decide) (by decide) (by decide) (by decide) (by decide)
      (by decide) (by decide) (by decide) (by decide))
  · exact congrArg Prod.fst (h.2.1 0 20 "111111" "222222" "NT" true
      ⟨[], [⟨1, "Ann", "a@b.cd", "PH", hash_otp "111111", 300, 0, none⟩], [], [], 1, 2, 1, 1⟩
      ⟨1, "Ann", "a@b.cd", "PH", hash_otp "111111", 300, 0, none⟩
      (by decide) (by decide) (by decide) (by decide) (by decide) (by decide))
  · exact congrArg Prod.fst (h.2.2 0 20 "111111" "222222" "ip" "VT" true
      ⟨[⟨1, "Ann", "a@b.cd", "PH", "user", "tk", true⟩], [], [], [], 2, 1, 1, 1⟩
      ⟨1, "Ann", "a@b.cd", "PH", "user", "tk", true⟩
      (by decide) (by decide) (by decide) (by decide) (by decide) (by decide) (by decide))

/-- Amended claim C6: with a valid, unexpired, unused verification-token
session, `reset_password` updates that account's password hash to the hash
of the new password, deletes every `password_reset_otp` row and the
rate-limit row for the email — but leaves the `registration_otp` table
(registration pending records) untouched. -/
theorem c6_amended_reset_password_effects (now : Nat) (email vtok npw : String) (db : AuthDb)
    (R : ResetOtpRow) (u : UserRow)
    (hne : email ≠ "") (hvt : vtok ≠ "") (hnp : npw ≠ "")
    (hl1 : ¬ npw.length < 6) (hl2 : ¬ 128 < npw.length)
    (hsess : findResetSession now email (hash_otp vtok) db.resetOtp = some R)
    (hfu : db.users.find? (fun w => w.email == email) = some u) :
    reset_password now email vtok npw db =
      (.ok,
       { db with
           users := db.users.map (fun w =>
             if w.id == u.id then { w with passwordHash := generate_password_hash npw } else w),
           resetOtp := db.resetOtp.filter (fun r => !(r.email == email)),
           rateLimit := db.rateLimit.filter (fun r => !(r.email == email)) }) ∧
    ((reset_password now email vtok npw db).2).regOtp = db.regOtp ∧
    ((reset_password now email vtok npw db).2).resetOtp.filter (fun r => r.email == email) = [] ∧
    ((reset_password now email vtok npw db).2).rateLimit.filter (fun r => r.email == email) = [] := by
  have h1 : (email == "") = false := by simpa using hne
  have h2 : (vtok == "") = false := by simpa using hvt
  have h3 : (npw == "") = false := by simpa using hnp
  have hmain : reset_password now email vtok npw db =
      (.ok,
       { db with
           users := db.users.map (fun w =>
             if w.id == u.id then { w with passwordHash := generate_password_hash npw } else w),
           resetOtp := db.resetOtp.filter (fun r => !(r.email == email)),
           rateLimit := db.rateLimit.filter (fun r => !(r.email == email)) }) := by
    simp [reset_password, h1, h2, h3, hl1, hl2, hsess, hfu]
  refine ⟨hmain, ?_, ?_, ?_⟩
  · rw [hmain]
  · rw [hmain]
    exact filter_pos_of_filter_neg _ _
  · rw [hmain]
    exact filter_pos_of_filter_neg _ _

/-- Concrete instantiation of the amended C6 theorem at a one-user store
holding a pending registration row, a reset session row and a rate row for
the email. -/
theorem c6_amended_reset_password_effects_witness :
    reset_password 10 "a@b.cd" "VT" "newpass01" c6Db =
      (.ok,
       { c6Db with
           users := c6Db.users.map (fun w =>
             if w.id == 1 then { w with passwordHash := generate_password_hash "newpass01" }
             else w),
           resetOtp := c6Db.resetOtp.filter (fun r => !(r.email == "a@b.cd")),
           rateLimit := c6Db.rateLimit.filter (fun r => !(r.email == "a@b.cd")) }) ∧
    ((reset_password 10 "a@b.cd" "VT" "newpass01" c6Db).2).regOtp = c6Db.regOtp :=
  ⟨(c6_amended_reset_password_effects 10 "a@b.cd" "VT" "newpass01" c6Db
      ⟨1, "a@b.cd", hash_otp "VT", 300, false, 0, none⟩
      ⟨1, "Ann", "a@b.cd", "PHOLD", "user", "tk", true⟩
      (by decide) (by decide) (by decide) (by decide) (by decide) (by decide) (by decide)).1,
   (c6_amended_reset_password_effects 10 "a@b.cd" "VT" "newpass01" c6Db
      ⟨1, "a@b.cd", hash_otp "VT", 300, false, 0, none⟩
      ⟨1, "Ann", "a@b.cd", "PHOLD", "user", "tk", true⟩
      (by decide) (by decide) (by decide) (by decide) (by decide) (by decide) (by decide)).2.1⟩

/-- Amended claim C10: when a user row for the email already exists at
verification time, `register_verify` returns the conflict error and never
touches the `users` table (so at most one account per email is preserved);
the pending registration DB row is deleted when verification resolved the
pending record from the DB, but is left in place when a valid registration
token was used (`pending_id` is `None` on that path). -/
theorem c10_amended_no_second_account :
    (∀ (now : Nat) (email otp ntok : String) (db : AuthDb) (p : RegOtpRow),
      email ≠ "" → otp.data.all Char.isDigit = true → otp.length = OTP_LENGTH →
      db.regOtp.find? (fun r => r.email == email) = some p →
      hash_otp otp = p.otpHash → ¬ p.expiresAt < now →
      db.users.any (fun u => u.email == email) = true →
      register_verify now email otp none ntok db =
        (.alreadyRegistered, { db with regOtp := db.regOtp.filter (fun r => !(r.id == p.id)) })) ∧
    (∀ (now : Nat) (email otp ntok : String) (db : AuthDb) (t : RegToken),
      email ≠ "" → otp.data.all Char.isDigit = true → otp.length = OTP_LENGTH →
      now < t.exp → t.email = email → hash_otp otp = t.otpHash → ¬ t.expiresAt < now →
      db.users.any (fun u => u.email == email) = true →
      register_verify now email otp (some t) ntok db = (.alreadyRegistered, db)) ∧
    (∀ (now : Nat) (email otp ntok : String) (token : Option RegToken) (db : AuthDb),
      db.users.any (fun u => u.email == email) = true →
      ((register_verify now email otp token ntok db).2).users = db.users) := by
  refine ⟨?_, ?_, ?_⟩
  · intro now email otp ntok db p hne hdig hlen hfind hhash hexp hany
    have h1 : (email == "") = false := by simpa using hne
    have h2 : (otp == "") = false := by
      have : otp ≠ "" := by
        intro h
        rw [h] at hlen
        exact absurd hlen (by decide)
      simpa using this
    have hvh : verify_otp_hash otp p.otpHash = true := by simp [verify_otp_hash, hhash]
    simp [register_verify, registerVerifyPending, decodeRegistrationToken,
      h1, h2, hdig, hlen, hfind, hvh, hexp, hany]
  · intro now email otp ntok db t hne hdig hlen hnow hteq hhash hexp hany
    have h1 : (email == "") = false := by simpa using hne
    have h2 : (otp == "") = false := by
      have : otp ≠ "" := by
        intro h
        rw [h] at hlen
        exact absurd hlen (by decide)
      simpa using this
    have hvh : verify_otp_hash otp t.otpHash = true := by simp [verify_otp_hash, hhash]
    simp [register_verify, registerVerifyPending, decodeRegistrationToken,
      h1, h2, hdig, hlen, hnow, hteq, hvh, hexp, hany]
  · intro now email otp ntok token db hany
    have hp : ∀ (pid : Option Nat) (pn pe pph poh : String) (pexp : Nat),
        ((registerVerifyPending now email pid pn pe pph poh pexp otp ntok db).2).users
          = db.users := by
      intro pid pn pe pph poh pexp
      unfold registerVerifyPending
      rw [hany]
      split
      · rfl
      · split
        · rfl
        · rw [if_pos rfl]
    unfold register_verify
    split
    · rfl
    · split
      · rfl
      · split
        · exact hp _ _ _ _ _ _
        · split
          · rfl
          · exact hp _ _ _ _ _ _

/-- Concrete instantiation of all parts of the amended C10 theorem. -/
theorem c10_amended_no_second_account_witness :
    register_verify 20 "a@b.cd" "111111" none "NT" c10Db =
      (.alreadyRegistered, { c10Db with regOtp := c10Db.regOtp.filter (fun r => !(r.id == 5)) }) ∧
    register_verify 20 "a@b.cd" "111111" (some c10Tok) "NT" c10Db = (.alreadyRegistered, c10Db) ∧
    ((register_verify 20 "a@b.cd" "111111" (some c10Tok) "NT" c10Db).2).users = c10Db.users :=
  ⟨c10_amended_no_second_account.1 20 "a@b.cd" "111111" "NT" c10Db
     ⟨5, "Ann", "a@b.cd", "PH", hash_otp "111111", 300, 0, none⟩
     (by decide) (by decide) (by decide) (by decide) (by decide) (by decide) (by decide),
   c10_amended_no_second_account.2.1 20 "a@b.cd" "111111" "NT" c10Db c10Tok
     (by decide) (by decide) (by decide) (by decide) (by decide) (by decide) (by decide)
     (by decide),
   c10_amended_no_second_account.2.2 20 "a@b.cd" "111111" "NT" (some c10Tok) c10Db (by decide)⟩

/-- Amended claim C5: for a valid registration request, (1) the first
request in a fresh window is allowed and creates the window row with count
1; (2) a request inside the window with count below the cap is allowed and
increments the count (so the second and third requests are allowed); (3) a
request inside the window once the count has reached the cap of 3 (the
fourth request) is rejected as rate-limited with the store unchanged, the
remaining window time positive, and `retry_after` equal to the whole
minutes remaining — which is 0 when less than a minute remains, so the
claimed strictly-positive retry-after fails (see the counterexample); and
(4) once the window has elapsed, the next request is allowed and resets
the counter to 1 with a fresh window start. -/
theorem c5_amended_rate_limit_window (name email pw ip : String) (eok : Bool)
    (hname : 2 ≤ name.length) (hne : email ≠ "") (hval : is_valid_email email = true)
    (hpw1 : 6 ≤ pw.length) (hpw2 : pw.length ≤ 128) :
    (∀ (now : Nat) (otp : String) (db : AuthDb),
      db.users.any (fun u => u.email == email) = false →
      db.rateLimit.find? (fun r => r.email == email) = none →
      regRequestIssued (register_request now name email pw otp ip eok db).1 = true ∧
      ((register_request now name email pw otp ip eok db).2).rateLimit.find?
          (fun r => r.email == email)
        = some ⟨db.nextRateId, email, 1, now, now⟩) ∧
    (∀ (now : Nat) (otp : String) (db : AuthDb) (r0 : RateRow),
      db.users.any (fun u => u.email == email) = false →
      db.rateLimit.find? (fun r => r.email == email) = some r0 →
      now - r0.windowStart < OTP_RATE_LIMIT_WINDOW_SECONDS →
      r0.requestCount < OTP_RATE_LIMIT_MAX →
      regRequestIssued (register_request now name email pw otp ip eok db).1 = true ∧
      ((register_request now name email pw otp ip eok db).2).rateLimit.find?
          (fun r => r.email == email)
        = some ⟨r0.id, r0.email, r0.requestCount + 1, r0.windowStart, now⟩) ∧
    (∀ (now : Nat) (otp : String) (db : AuthDb) (r0 : RateRow),
      db.users.any (fun u => u.email == email) = false →
      db.rateLimit.find? (fun r => r.email == email) = some r0 →
      now - r0.windowStart < OTP_RATE_LIMIT_WINDOW_SECONDS →
      OTP_RATE_LIMIT_MAX ≤ r0.requestCount →
      register_request now name email pw otp ip eok db
        = (.rateLimited ((OTP_RATE_LIMIT_WINDOW_SECONDS - (now - r0.windowStart)) / 60), db) ∧
      0 < OTP_RATE_LIMIT_WINDOW_SECONDS - (now - r0.windowStart)) ∧
    (∀ (now : Nat) (otp : String) (db : AuthDb) (r0 : RateRow),
      db.users.any (fun u => u.email == email) = false →
      db.rateLimit.find? (fun r => r.email == email) = some r0 →
      OTP_RATE_LIMIT_WINDOW_SECONDS ≤ now - r0.windowStart →
      regRequestIssued (register_request now name email pw otp ip eok db).1 = true ∧
      ((register_request now name email pw otp ip eok db).2).rateLimit.find?
          (fun r => r.email == email)
        = some ⟨r0.id, r0.email, 1, now, now⟩) := by
  have h1 : (email == "") = false := by simpa using hne
  have hname' : ¬ name.length < 2 := by omega
  have hpw1' : ¬ pw.length < 6 := by omega
  have hpw2' : ¬ 128 < pw.length := by omega
  refine ⟨?_, ?_, ?_, ?_⟩
  · intro now otp db husers hnone
    have hcrl : check_rate_limit now email db
        = ((true, OTP_RATE_LIMIT_MAX - 1),
           { db with
               rateLimit := db.rateLimit ++ [⟨db.nextRateId, email, 1, now, now⟩],
               nextRateId := db.nextRateId + 1 }) := by
      simp [check_rate_limit, hnone]
    constructor
    · cases eok <;>
        simp [register_request, hname', h1, hval, hpw1', hpw2', husers, hcrl, regRequestIssued]
    · have hrl : ((register_request now name email pw otp ip eok db).2).rateLimit
          = db.rateLimit ++ [⟨db.nextRateId, email, 1, now, now⟩] := by
        simp [register_request, hname', h1, hval, hpw1', hpw2', husers, hcrl]
      rw [hrl, find?_append_of_none _ _ _ hnone]
      exact List.find?_cons_of_pos _ (by simp)
  · intro now otp db r0 husers hfind hw hq
    have hw' : ¬ OTP_RATE_LIMIT_WINDOW_SECONDS ≤ now - r0.windowStart := by omega
    have hq' : ¬ OTP_RATE_LIMIT_MAX ≤ r0.requestCount := by omega
    have hcrl : check_rate_limit now email db
        = ((true, OTP_RATE_LIMIT_MAX - 1 - r0.requestCount),
           { db with rateLimit := db.rateLimit.map (fun r =>
               if r.id == r0.id then
                 { r with requestCount := r.requestCount + 1, lastRequest := now }
               else r) }) := by
      simp [check_rate_limit, hfind, hw', hq']
    constructor
    · cases eok <;>
        simp [register_request, hname', h1, hval, hpw1', hpw2', husers, hcrl, regRequestIssued]
    · have hrl : ((register_request now name email pw otp ip eok db).2).rateLimit
          = db.rateLimit.map (fun r =>
              if r.id == r0.id then
                { r with requestCount := r.requestCount + 1, lastRequest := now }
              else r) := by
        simp [register_request, hname', h1, hval, hpw1', hpw2', husers, hcrl]
      rw [hrl, find?_map_pres _ _ _ (by
        intro x
        by_cases hid : (x.id == r0.id) = true
        · rw [if_pos hid]
        · rw [if_neg hid])]
      rw [hfind]
      simp
  · intro now otp db r0 husers hfind hw hq
    have hw' : ¬ OTP_RATE_LIMIT_WINDOW_SECONDS ≤ now - r0.windowStart := by omega
    have hcrl : check_rate_limit now email db
        = ((false, OTP_RATE_LIMIT_WINDOW_SECONDS - (now - r0.windowStart)), db) := by
      simp [check_rate_limit, hfind, hw', hq]
    constructor
    · simp [register_request, hname', h1, hval, hpw1', hpw2', husers, hcrl]
    · omega
  · intro now otp db r0 husers hfind hw
    have hcrl : check_rate_limit now email db
        = ((true, OTP_RATE_LIMIT_MAX - 1),
           { db with rateLimit := db.rateLimit.map (fun r =>
               if r.id == r0.id then
                 { r with requestCount := 1, windowStart := now, lastRequest := now }
               else r) }) := by
      simp [check_rate_limit, hfind, hw]
    constructor
    · cases eok <;>
        simp [register_request, hname', h1, hval, hpw1', hpw2', husers, hcrl, regRequestIssued]
    · have hrl : ((register_request now name email pw otp ip eok db).2).rateLimit
          = db.rateLimit.map (fun r =>
              if r.id == r0.id then
                { r with requestCount := 1, windowStart := now, lastRequest := now }
              else r) := by
        simp [register_request, hname', h1, hval, hpw1', hpw2', husers, hcrl]
      rw [hrl, find?_map_pres _ _ _ (by
        intro x
        by_cases hid : (x.id == r0.id) = true
        · rw [if_pos hid]
        · rw [if_neg hid])]
      rw [hfind]
      simp

/-- Concrete instantiation of the amended C5 theorem along a full chain:
requests at 0s, 60s and 120s are allowed (window counts 1, 2, 3), the
fourth request at 570s is rejected with retry-after `(600 - 570) / 60 = 0`
while the remaining window time 30s is positive, and a request at 600s is
allowed again and resets the counter to 1. -/
theorem c5_amended_rate_limit_window_witness :
    regRequestIssued (register_request 0 "Ann" "a@b.cd" "secret01" "111111" "ip" true
      emptyAuthDb).1 = true ∧
    regRequestIssued (register_request 60 "Ann" "a@b.cd" "secret01" "222222" "ip" true
      c5Db1).1 = true ∧
    regRequestIssued (register_request 120 "Ann" "a@b.cd" "secret01" "333333" "ip" true
      c5Db2).1 = true ∧
    register_request 570 "Ann" "a@b.cd" "secret01" "444444" "ip" true c5Db3
      = (.rateLimited ((600 - (570 - 0)) / 60), c5Db3) ∧
    0 < 600 - (570 - 0) ∧
    regRequestIssued (register_request 600 "Ann" "a@b.cd" "secret01" "555555" "ip" true
      c5Db3).1 = true ∧
    ((register_request 600 "Ann" "a@b.cd" "secret01" "555555" "ip" true c5Db3).2).rateLimit.find?
        (fun r => r.email == "a@b.cd")
      = some ⟨1, "a@b.cd", 1, 600, 600⟩ := by
  have h := c5_amended_rate_limit_window "Ann" "a@b.cd" "secret01" "ip" true
    (by decide) (by decide) (by decide) (by decide) (by decide)
  refine ⟨(h.1 0 "111111" emptyAuthDb (by decide) (by decide)).1,
          (h.2.1 60 "222222" c5Db1 ⟨1, "a@b.cd", 1, 0, 0⟩
            (by decide) (by decide) (by decide) (by decide)).1,
          (h.2.1 120 "333333" c5Db2 ⟨1, "a@b.cd", 2, 0, 60⟩
            (by decide) (by decide) (by decide) (by decide)).1,
          (h.2.2.1 570 "444444" c5Db3 ⟨1, "a@b.cd", 3, 0, 120⟩
            (by decide) (by decide) (by decide) (by decide)).1,
          (h.2.2.1 570 "444444" c5Db3 ⟨1, "a@b.cd", 3, 0, 120⟩
            (by decide) (by decide) (by decide) (by decide)).2,
          (h.2.2.2 600 "555555" c5Db3 ⟨1, "a@b.cd", 3, 0, 120⟩
            (by decide) (by decide) (by decide)).1,
          (h.2.2.2 600 "555555" c5Db3 ⟨1, "a@b.cd", 3, 0, 120⟩
            (by decide) (by decide) (by decide)).2⟩
